import Mathlib

set_option maxRecDepth 10000

/-!
Verification development for the ergconvert repository: a shallow embedding of
the calibration-fitting / unit-conversion / sync-reconciliation core
(`src/lib/c2.ts`, `src/lib/calibration.ts`, `src/lib/converter.ts`,
`src/lib/sync.ts`) together with theorems settling the frozen claims.

Modelling conventions:
* JavaScript numbers stored in data records are modelled as `ℚ` (all data in
  scope is exact); numeric computation that uses `Math.pow`/`Math.log` with
  fractional exponents is modelled over `ℝ` with `Real.rpow`, coercing the
  stored rationals.  `Math.round` is Mathlib's `round` (floor of x + 1/2,
  ties toward +∞, matching JavaScript).
* Fallible functions (`throw`) are modelled with `Except String`.
* JavaScript truthiness tests on optional numeric fields (`if (x)`) are
  modelled by `jsTruthy`: false for an absent value and for 0.
* 32-bit wrap-around (`h & h` after `<<`/`-`/`+` in the sync hash) is modelled
  with explicit `% 2 ^ 32` arithmetic on `ℤ`.
-/

/-- The two ergometer modalities (`'row' | 'bike'`). -/
inductive Modality where
  | row : Modality
  | bike : Modality
deriving DecidableEq, Repr

/-- `target_spec` of a workout (`'pace_500' | 'pace_1000' | 'watts' | 'rpm'`). -/
inductive TargetSpec where
  | pace_500 : TargetSpec
  | pace_1000 : TargetSpec
  | watts : TargetSpec
  | rpm : TargetSpec
deriving DecidableEq, Repr

/-- Provenance of a calibration sample (`'manual' | 'ble'`). -/
inductive SampleSource where
  | manual : SampleSource
  | ble : SampleSource
deriving DecidableEq, Repr

/-- A calibration sample: optional `rpm` (bike) or `pace_500` (row), the
measured `watts`, plus provenance and timestamp metadata. -/
structure Sample where
  rpm : Option ℚ
  pace_500 : Option ℚ
  watts : ℚ
  source : SampleSource
  timestamp : ℤ
deriving DecidableEq, Repr

/-- A calibration profile as stored locally or remotely.  `id` is the
storage-assigned identifier (IndexedDB auto-increment locally, UUID remotely),
absent before first save.  `modality` is optional because the sync download
path constructs profiles without it. -/
structure CalibrationProfile where
  id : Option String
  modality : Option Modality
  damper : ℚ
  a : ℚ
  b : ℚ
  r2 : ℚ
  samples : List Sample
  created_at : ℤ
  updated_at : ℤ
deriving DecidableEq, Repr

/-- A workout interval (source name `Interval`; renamed here because Mathlib
already declares `Interval`): at most one of `distance`/`duration` drives it,
`target_value` is interpreted through the workout's `target_spec`. -/
structure WorkoutInterval where
  distance : Option ℚ
  duration : Option ℚ
  target_value : ℚ
deriving DecidableEq, Repr

/-- A workout to be converted between modalities. -/
structure Workout where
  id : String
  source_modality : Modality
  target_modality : Modality
  target_spec : TargetSpec
  damper_for_target : ℚ
  intervals : List WorkoutInterval
  rest : ℚ
deriving DecidableEq, Repr

/-- One converted interval of the conversion result.  `target_watts` and
`target_rpm` are the integer-rounded outputs; `target_pace` is rounded to
0.1 s (`Math.round(p * 10) / 10`); `duration_seconds` / `distance_meters`
are present or absent as the converter decides. -/
structure ConvertedInterval where
  rep : ℕ
  target_watts : ℤ
  target_rpm : ℤ
  target_pace : ℝ
  duration_seconds : Option ℝ
  distance_meters : Option ℝ

/-- The overall result of `convertWorkout`. -/
structure ConversionResult where
  intervals : List ConvertedInterval
  rest_seconds : ℚ
  damper : ℚ

/-- Is this modality `row`?  Models the JavaScript comparisons
`modality === 'row'` used throughout the converter. -/
def Modality.isRow : Modality → Bool
  | .row => true
  | .bike => false

/-- JavaScript truthiness of an optional numeric field: `undefined` and `0`
are falsy (`if (interval.distance)`, `if (!s.rpm)`, ...). -/
def jsTruthy : Option ℚ → Bool
  | none => false
  | some q => decide (q ≠ 0)

/-- JavaScript `x || d` on a number `x`: `d` when `x` is `0`, else `x`
(`workout.damper_for_target || 5`). -/
def jsOr (x d : ℚ) : ℚ :=
  if x = 0 then d else x

/-- Wrap an integer to a 32-bit signed integer, as JavaScript's `| 0` /
`x & x` coercion (`ToInt32`) does. -/
def toInt32 (x : ℤ) : ℤ :=
  (x + 2 ^ 31) % 2 ^ 32 - 2 ^ 31

/-! ## `src/lib/c2.ts` — Concept2 pace/watts conversions -/

/-- `paceToWatts(paceSeconds, isRowErg)`: Concept2 formula
`watts = 2.8 / (pacePer500 / 500) ^ 3`, where a BikeErg pace (per 1000 m)
is halved to its 500 m equivalent first. -/
noncomputable def paceToWatts (paceSeconds : ℝ) ( isRowErg : Bool) : ℝ :=
  let pacePer500 := if isRowErg then paceSeconds else paceSeconds / 2
  2.8 / (pacePer500 / 500) ^ (3 : ℕ)

/-- `wattsToPace(watts, isRowErg)`: the inverse formula
`pacePer500 = (2.8 / watts) ^ (1/3) * 500`, doubled for BikeErg (per 1000 m). -/
noncomputable def wattsToPace (watts : ℝ) ( isRowErg : Bool) : ℝ :=
  let pacePer500Ratio := (2.8 / watts) ^ ((1 : ℝ) / 3)
  let pacePer500 := pacePer500Ratio * 500
  if isRowErg then pacePer500 else pacePer500 * 2

/-- `wattsToCaloriesPerHour(watts) = 4 * watts + 300`. -/
noncomputable def wattsToCaloriesPerHour (watts : ℝ) : ℝ :=
  4 * watts + 300

/-- Split a character list at every occurrence of `c`, as JavaScript
`String.prototype.split` with a single-character separator
(`"".split(c) = [""]`, separators at the ends produce empty parts). -/
def splitOnCharAux (c : Char) : List Char → List Char → List (List Char)
  | [], acc => [acc.reverse]
  | x :: xs, acc =>
      if x = c then acc.reverse :: splitOnCharAux c xs []
      else splitOnCharAux c xs (x :: acc)

/-- JavaScript `s.split(c)` for a one-character separator. -/
def jsSplitChar (s : List Char) (c : Char) : List (List Char) :=
  splitOnCharAux c s []

/-- Value of a leading run of decimal digits; `none` when there is no leading
digit (JavaScript `parseInt` yields `NaN` then). -/
def leadingDigitsVal (l : List Char) : Option ℕ :=
  let ds := l.takeWhile Char.isDigit
  if ds.isEmpty then none
  else some (ds.foldl (fun acc c => acc * 10 + (c.toNat - 48)) 0)

/-- JavaScript `parseInt(s)` (radix 10): skip leading whitespace, optional
sign, then the longest prefix of decimal digits; `NaN` (modelled `none`) when
no digit follows.  The hexadecimal `0x` form is not modelled: the inputs in
scope are pace strings. -/
def jsParseInt (l : List Char) : Option ℚ :=
  let t := l.dropWhile (fun c => c = ' ' ∨ c = '\t' ∨ c = '\n' ∨ c = '\r')
  match t with
  | '-' :: rest => (leadingDigitsVal rest).map (fun n => -(n : ℚ))
  | '+' :: rest => (leadingDigitsVal rest).map (fun n => (n : ℚ))
  | _ => (leadingDigitsVal t).map (fun n => (n : ℚ))

/-- JavaScript addition where either operand may be `NaN`. -/
def jsAdd : Option ℚ → Option ℚ → Option ℚ
  | some a, some b => some (a + b)
  | _, _ => none

/-- JavaScript multiplication where either operand may be `NaN`. -/
def jsMul : Option ℚ → Option ℚ → Option ℚ
  | some a, some b => some (a * b)
  | _, _ => none

/-- JavaScript division by a nonzero constant where the dividend may be
`NaN`. -/
def jsDivC (x : Option ℚ) (d : ℚ) : Option ℚ :=
  x.map (fun a => a / d)

/-- `parsePace(paceString)`: split on `':'`; throw `'Invalid pace format'`
unless exactly two parts; then `parseInt` minutes, split the second part on
`'.'` for seconds and optional tenths, and return
`minutes * 60 + seconds + tenths / 10` (`NaN`, i.e. `none`, when any
`parseInt` fails — the code does not check for `NaN`). -/
def parsePace (s : String) : Except String (Option ℚ) :=
  let parts := jsSplitChar s.data ':'
  if parts.length ≠ 2 then .error "Invalid pace format"
  else
    let minutes := jsParseInt (parts.getD 0 [])
    let secondsPart := jsSplitChar (parts.getD 1 []) '.'
    let seconds := jsParseInt (secondsPart.getD 0 [])
    let tenths := if secondsPart.length > 1 then jsParseInt (secondsPart.getD 1 []) else some 0
    .ok (jsAdd (jsAdd (jsMul minutes (some 60)) seconds) (jsDivC tenths 10))

/-! ## `src/lib/calibration.ts` — power-curve fitting and prediction -/

/-- `predictWatts(rate, a, b) = a * rate ^ b` (BikeErg forward formula). -/
noncomputable def predictWatts (rate a b : ℝ) : ℝ :=
  a * rate ^ b

/-- `predictStrokeRate(watts, a, b) = a * watts ^ b` (RowErg forward
formula). -/
noncomputable def predictStrokeRate (watts a b : ℝ) : ℝ :=
  a * watts ^ b

/-- `predictRate(watts, a, b, modality)`: stroke-rate prediction for row,
inverted bike formula `(watts / a) ^ (1 / b)` for bike. -/
noncomputable def predictRate (watts a b : ℝ) (modality : Modality) : ℝ :=
  if modality = .row then predictStrokeRate watts a b
  else (watts / a) ^ (1 / b)

/-- `predictRpm(watts, a, b)`: legacy alias for `predictRate` with the bike
modality; this is what `convertWorkout` calls. -/
noncomputable def predictRpm (watts a b : ℝ) : ℝ :=
  predictRate watts a b .bike

/-- `clampRpm(rpm) = max(60, min(120, rpm))`. -/
noncomputable def clampRpm (rpm : ℝ) : ℝ :=
  max 60 (min 120 rpm)

/-- `clampStrokeRate(sr) = max(18, min(32, sr))`. -/
noncomputable def clampStrokeRate (strokeRate : ℝ) : ℝ :=
  max 18 (min 32 strokeRate)

/-- `getGenericCalibration(damper)`: generic bike coefficients
`a = 0.0026 * (1 + (damper - 5) * 0.1)`, `b = 3.2`. -/
noncomputable def getGenericCalibration (damper : ℝ) : ℝ × ℝ :=
  (0.0026 * (1 + (damper - 5) * 0.1), 3.2)

/-- `getGenericRowCalibration(damper)`: generic row coefficients
`a = 0.15 * (1 + (damper - 5) * 0.05)`, `b = 0.35`. -/
noncomputable def getGenericRowCalibration (damper : ℝ) : ℝ × ℝ :=
  (0.15 * (1 + (damper - 5) * 0.05), 0.35)

/-- `validateCalibration(profile) = profile.r2 >= 0.95 && samples.length >= 3`. -/
def validateCalibration (c : CalibrationProfile) : Bool :=
  decide ((19 : ℚ) / 20 ≤ c.r2) && decide (3 ≤ c.samples.length)

/-- Result record of `fitPowerCurve`. -/
structure FitResult where
  a : ℝ
  b : ℝ
  r2 : ℝ

/-- Sum of a list of reals, as the JavaScript `reduce((sum, x) => sum + x, 0)`
folds used throughout `fitPowerCurve`. -/
def sumR (l : List ℝ) : ℝ :=
  l.foldl (· + ·) 0

/-- Bike branch of `fitPowerCurve`: `logY = samples.map(s => log(s.watts))`. -/
noncomputable def bikeLogY (samples : List Sample) : List ℝ :=
  samples.map (fun s => Real.log (s.watts : ℝ))

/-- Bike branch of `fitPowerCurve`: `logX = samples.map(s => log(s.rpm))`
(each `rpm` is known truthy when this is used). -/
noncomputable def bikeLogX (samples : List Sample) : List ℝ :=
  samples.map (fun s => Real.log ((s.rpm.getD 0 : ℚ) : ℝ))

/-- Bike branch: the slope `b` of the log-log ordinary least squares,
`(n * sumXY - sumX * sumY) / (n * sumXX - sumX ^ 2)`. -/
noncomputable def bikeSlope (samples : List Sample) : ℝ :=
  let n : ℝ := samples.length
  let sumLogX := sumR (bikeLogX samples)
  let sumLogY := sumR (bikeLogY samples)
  let sumLogXSq := sumR ((bikeLogX samples).map (fun x => x * x))
  let sumLogXLogY := sumR (((bikeLogX samples).zip (bikeLogY samples)).map (fun p => p.1 * p.2))
  (n * sumLogXLogY - sumLogX * sumLogY) / (n * sumLogXSq - sumLogX * sumLogX)

/-- Bike branch: the intercept `logA = (sumY - b * sumX) / n`. -/
noncomputable def bikeLogA (samples : List Sample) : ℝ :=
  (sumR (bikeLogY samples) - bikeSlope samples * sumR (bikeLogX samples)) / samples.length

/-- Bike branch: `meanLogY = sumLogY / n`. -/
noncomputable def bikeMeanLogY (samples : List Sample) : ℝ :=
  sumR (bikeLogY samples) / samples.length

/-- Bike branch: `totalSumSquares = Σ (y - meanLogY) ^ 2` over the log-space
watts.  This is the divisor of the bike-branch `R²` computation, which — unlike
the row branch — has no `totalSumSquares > 0` guard. -/
noncomputable def bikeTotalSS (samples : List Sample) : ℝ :=
  sumR ((bikeLogY samples).map (fun y => (y - bikeMeanLogY samples) ^ 2))

/-- Bike branch: `residualSumSquares = Σ (y - (logA + b * x)) ^ 2`. -/
noncomputable def bikeResidualSS (samples : List Sample) : ℝ :=
  sumR (((bikeLogX samples).zip (bikeLogY samples)).map
    (fun p => (p.2 - (bikeLogA samples + bikeSlope samples * p.1)) ^ 2))

/-- Row branch of `fitPowerCurve`: the synthetic stroke-rate estimate derived
from a sample's `pace_500` and `watts`:
`baseSR = 2.0 / (pace/500) ^ 0.5 * 12`,
`efficiency = watts / (2.8 / (pace/500) ^ 3)`,
`estimatedSR = baseSR * efficiency ^ 0.3` clamped to `[18, 32]`. -/
noncomputable def rowEstimatedSR (s : Sample) : ℝ :=
  let pace500 : ℝ := (s.pace_500.getD 0 : ℚ)
  let power : ℝ := (s.watts : ℚ)
  let baseSR := 2.0 / (pace500 / 500) ^ ((0.5 : ℝ)) * 12
  let powerEfficiency := power / (2.8 / (pace500 / 500) ^ (3 : ℕ))
  let estimatedSR := baseSR * powerEfficiency ^ ((0.3 : ℝ))
  max 18 (min 32 estimatedSR)

/-- Row branch: `logX = watts.map(log)`. -/
noncomputable def rowLogX (samples : List Sample) : List ℝ :=
  samples.map (fun s => Real.log (s.watts : ℝ))

/-- Row branch: `logY = strokeRates.map(log)`. -/
noncomputable def rowLogY (samples : List Sample) : List ℝ :=
  samples.map (fun s => Real.log (rowEstimatedSR s))

/-- Row branch: slope of the log-log regression of stroke rate on watts. -/
noncomputable def rowSlope (samples : List Sample) : ℝ :=
  let n : ℝ := samples.length
  let sumLogX := sumR (rowLogX samples)
  let sumLogY := sumR (rowLogY samples)
  let sumLogXSq := sumR ((rowLogX samples).map (fun x => x * x))
  let sumLogXLogY := sumR (((rowLogX samples).zip (rowLogY samples)).map (fun p => p.1 * p.2))
  (n * sumLogXLogY - sumLogX * sumLogY) / (n * sumLogXSq - sumLogX * sumLogX)

/-- Row branch: intercept `logA`. -/
noncomputable def rowLogA (samples : List Sample) : ℝ :=
  (sumR (rowLogY samples) - rowSlope samples * sumR (rowLogX samples)) / samples.length

/-- Row branch: `meanLogY`. -/
noncomputable def rowMeanLogY (samples : List Sample) : ℝ :=
  sumR (rowLogY samples) / samples.length

/-- Row branch: `totalSumSquares`. -/
noncomputable def rowTotalSS (samples : List Sample) : ℝ :=
  sumR ((rowLogY samples).map (fun y => (y - rowMeanLogY samples) ^ 2))

/-- Row branch: `residualSumSquares`. -/
noncomputable def rowResidualSS (samples : List Sample) : ℝ :=
  sumR (((rowLogX samples).zip (rowLogY samples)).map
    (fun p => (p.2 - (rowLogA samples + rowSlope samples * p.1)) ^ 2))

/-- `fitPowerCurve(samples, modality)`: throws `InsufficientSamples` below 3
samples; bike fits `ln(watts) = ln(a) + b ln(rpm)` with
`r2 = 1 - SSres / SStot` (no `SStot = 0` guard); row derives synthetic stroke
rates, fits `ln(SR) = ln(a) + b ln(watts)`, and guards
`r2 = SStot > 0 ? 1 - SSres / SStot : 0`. -/
noncomputable def fitPowerCurve (samples : List Sample) (modality : Modality) :
    Except String FitResult :=
  if samples.length < 3 then .error "Need at least 3 samples for calibration"
  else
    match modality with
    | .bike =>
        if samples.all (fun s => jsTruthy s.rpm) then
          .ok ⟨Real.exp (bikeLogA samples), bikeSlope samples,
               1 - bikeResidualSS samples / bikeTotalSS samples⟩
        else .error "Missing RPM data for BikeErg"
    | .row =>
        if samples.all (fun s => jsTruthy s.pace_500) then
          .ok ⟨Real.exp (rowLogA samples), rowSlope samples,
               if rowTotalSS samples > 0 then 1 - rowResidualSS samples / rowTotalSS samples
               else 0⟩
        else .error "Missing pace_500 data for RowErg calibration"

/-! ## `src/lib/converter.ts` — workout conversion orchestration -/

/-- `getSourcePace(interval, workout)`: re-derive the source-modality pace
from the interval's original target spec; throws for the `rpm` spec. -/
noncomputable def getSourcePace (iv : WorkoutInterval) (w : Workout) : Except String ℝ :=
  match w.target_spec with
  | .pace_500 => .ok (iv.target_value : ℝ)
  | .pace_1000 =>
      if w.source_modality = .row then .ok ((iv.target_value : ℝ) / 2)
      else .ok (iv.target_value : ℝ)
  | .watts => .ok (wattsToPace (iv.target_value : ℝ) w.source_modality.isRow)
  | .rpm => .error "RPM to pace conversion requires calibration context"

/-- Total version of `getSourcePace`, equal to it away from the `rpm` spec
(used to state and prove facts about successful conversions). -/
noncomputable def getSourcePaceVal (iv : WorkoutInterval) (w : Workout) : ℝ :=
  match w.target_spec with
  | .pace_500 => (iv.target_value : ℝ)
  | .pace_1000 =>
      if w.source_modality = .row then (iv.target_value : ℝ) / 2
      else (iv.target_value : ℝ)
  | .watts => wattsToPace (iv.target_value : ℝ) w.source_modality.isRow
  | .rpm => 0

/-- `calculateTimeFromDistance(distance, pace, isRowErg)`:
`Math.round(distance * pace / (isRowErg ? 500 : 1000))`. -/
noncomputable def calculateTimeFromDistance (distance pace : ℝ) ( isRowErg : Bool) : ℤ :=
  let paceUnit : ℝ := if isRowErg then 500 else 1000
  let pacePerMeter := pace / paceUnit
  round (distance * pacePerMeter)

/-- Step 1 of `convertWorkout`'s per-interval conversion: the switch on
`target_spec` producing watts; throws `CalibrationRequired` for the `rpm`
spec when no calibration profile was supplied. -/
noncomputable def intervalTargetWatts (spec : TargetSpec) (a b : ℝ) (hasCal : Bool)
    (value : ℝ) : Except String ℝ :=
  match spec with
  | .pace_500 => .ok (paceToWatts value true)
  | .pace_1000 => .ok (paceToWatts value false)
  | .watts => .ok value
  | .rpm =>
      if hasCal then .ok (a * value ^ b)
      else .error "Calibration required for RPM conversion"

/-- Total version of `intervalTargetWatts` (the value it returns whenever it
does not throw). -/
noncomputable def intervalTargetWattsVal (spec : TargetSpec) (a b : ℝ) (value : ℝ) : ℝ :=
  match spec with
  | .pace_500 => paceToWatts value true
  | .pace_1000 => paceToWatts value false
  | .watts => value
  | .rpm => a * value ^ b

/-- The per-interval body of `convertWorkout`'s `map`: convert the target to
watts, derive target pace and rpm, then the duration/distance fields by the
same- versus cross-modality rules; `index` is the 0-based interval index. -/
noncomputable def convertInterval (w : Workout) (a b : ℝ) (hasCal : Bool)
    (index : ℕ) (iv : WorkoutInterval) : Except String ConvertedInterval :=
  (intervalTargetWatts w.target_spec a b hasCal (iv.target_value : ℝ)).bind fun targetWatts =>
    let isTargetRow := w.target_modality.isRow
    let targetPace := wattsToPace targetWatts isTargetRow
    let targetRpm := predictRpm targetWatts a b
    let isSourceRow := w.source_modality.isRow
    let isCross := isSourceRow != isTargetRow
    let finish : Option ℝ → Option ℝ → ConvertedInterval := fun dur dist =>
      ⟨index + 1, round targetWatts, round (clampRpm targetRpm),
       ((round (targetPace * 10) : ℤ) : ℝ) / 10, dur, dist⟩
    if jsTruthy iv.distance then
      if isCross then
        (getSourcePace iv w).bind fun sourcePace =>
          let sourceTime := calculateTimeFromDistance ((iv.distance.getD 0 : ℚ) : ℝ)
            sourcePace isSourceRow
          .ok (finish (some ((sourceTime : ℤ) : ℝ)) none)
      else
        let d : ℝ := (iv.distance.getD 0 : ℚ)
        let pacePerMeter := targetPace / (if isTargetRow then (500 : ℝ) else 1000)
        .ok (finish (some ((round (d * pacePerMeter) : ℤ) : ℝ)) (some d))
    else if jsTruthy iv.duration then
      let dv : ℝ := (iv.duration.getD 0 : ℚ)
      if isCross then .ok (finish (some dv) none)
      else
        let metersPerSecond := (if isTargetRow then (500 : ℝ) else 1000) / targetPace
        .ok (finish (some dv) (some ((round (dv * metersPerSecond) : ℤ) : ℝ)))
    else .ok (finish none none)

/-- Total version of `convertInterval`, equal to it whenever `target_spec`
is not `rpm`. -/
noncomputable def convertIntervalVal (w : Workout) (a b : ℝ) (index : ℕ)
    (iv : WorkoutInterval) : ConvertedInterval :=
  let targetWatts := intervalTargetWattsVal w.target_spec a b (iv.target_value : ℝ)
  let isTargetRow := w.target_modality.isRow
  let targetPace := wattsToPace targetWatts isTargetRow
  let targetRpm := predictRpm targetWatts a b
  let isSourceRow := w.source_modality.isRow
  let isCross := isSourceRow != isTargetRow
  let finish : Option ℝ → Option ℝ → ConvertedInterval := fun dur dist =>
    ⟨index + 1, round targetWatts, round (clampRpm targetRpm),
     ((round (targetPace * 10) : ℤ) : ℝ) / 10, dur, dist⟩
  if jsTruthy iv.distance then
    if isCross then
      let sourceTime := calculateTimeFromDistance ((iv.distance.getD 0 : ℚ) : ℝ)
        (getSourcePaceVal iv w) isSourceRow
      finish (some ((sourceTime : ℤ) : ℝ)) none
    else
      let d : ℝ := (iv.distance.getD 0 : ℚ)
      let pacePerMeter := targetPace / (if isTargetRow then (500 : ℝ) else 1000)
      finish (some ((round (d * pacePerMeter) : ℤ) : ℝ)) (some d)
  else if jsTruthy iv.duration then
    let dv : ℝ := (iv.duration.getD 0 : ℚ)
    if isCross then finish (some dv) none
    else
      let metersPerSecond := (if isTargetRow then (500 : ℝ) else 1000) / targetPace
      finish (some dv) (some ((round (dv * metersPerSecond) : ℤ) : ℝ))
  else finish none none

/-- `workout.intervals.map((interval, index) => ...)` threaded through
`Except`: the first interval that throws aborts the whole conversion. -/
noncomputable def convertIntervals (w : Workout) (a b : ℝ) (hasCal : Bool) :
    ℕ → List WorkoutInterval → Except String (List ConvertedInterval)
  | _, [] => .ok []
  | i, iv :: rest =>
      (convertInterval w a b hasCal i iv).bind fun c =>
        (convertIntervals w a b hasCal (i + 1) rest).bind fun cs =>
          .ok (c :: cs)

/-- Total version of `convertIntervals` for non-`rpm` specs. -/
noncomputable def convertIntervalsVal (w : Workout) (a b : ℝ) :
    ℕ → List WorkoutInterval → List ConvertedInterval
  | _, [] => []
  | i, iv :: rest => convertIntervalVal w a b i iv :: convertIntervalsVal w a b (i + 1) rest

/-- `convertWorkout` after the `const { a, b } = ...` destructuring: convert
every interval, then assemble the result with `rest_seconds = workout.rest`
and `damper = workout.damper_for_target || 5`. -/
noncomputable def convertWorkoutAB (w : Workout) (a b : ℝ) (hasCal : Bool) :
    Except String ConversionResult :=
  (convertIntervals w a b hasCal 0 w.intervals).bind fun l =>
    .ok ⟨l, w.rest, jsOr w.damper_for_target 5⟩

/-- The coefficients `convertWorkout` destructures:
`calibrationProfile || getGenericCalibration(workout.damper_for_target || 5)`. -/
noncomputable def workoutCoeffs (w : Workout) (cal : Option CalibrationProfile) : ℝ × ℝ :=
  match cal with
  | some c => ((c.a : ℚ), (c.b : ℚ))
  | none => getGenericCalibration ((jsOr w.damper_for_target 5 : ℚ) : ℝ)

/-- `convertWorkout(workout, calibrationProfile?)`. -/
noncomputable def convertWorkout (w : Workout) (cal : Option CalibrationProfile) :
    Except String ConversionResult :=
  convertWorkoutAB w (workoutCoeffs w cal).1 (workoutCoeffs w cal).2 cal.isSome

/-! ## `src/lib/sync.ts` — fingerprint-based replica reconciliation -/

/-- JavaScript rendering of a number in a template string.  Integral values
render exactly as JavaScript does (`"7"`, `"-3"`); non-integral rationals are
rendered as `"num/den"`, a placeholder for JavaScript's decimal expansion —
no claim in scope depends on the rendering of a non-integral value, only on
the rendering being a function of the value. -/
def jsNumToString (q : ℚ) : String :=
  if q.den = 1 then toString q.num
  else toString q.num ++ "/" ++ toString q.den

/-- Rendering of a possibly-absent number in a template string:
`undefined` renders as `"undefined"` (this is what row samples' missing
`rpm` becomes inside `hashSamples`). -/
def jsOptNumToString : Option ℚ → String
  | none => "undefined"
  | some q => jsNumToString q

/-- The per-sample string of `hashSamples`: `` `${s.rpm},${s.watts}` ``. -/
def sampleKeyString (s : Sample) : String :=
  jsOptNumToString s.rpm ++ "," ++ jsNumToString s.watts

/-- JavaScript `charCodeAt`: the UTF-16 code unit, which for the ASCII
strings produced by `hashSamples` equals the code point. -/
def jsCharCode (c : Char) : ℤ :=
  (c.toNat : ℤ)

/-- One step of the rolling hash:
`hash = ((hash << 5) - hash) + charCode; hash = hash & hash` — the shift is a
32-bit operation and the final `& hash` coerces back to a 32-bit signed
integer; the intermediate float arithmetic is exact at these magnitudes. -/
def hashStep (h : ℤ) (c : Char) : ℤ :=
  toInt32 (toInt32 (h * 32) - h + jsCharCode c)

/-- The deterministic 32-bit rolling hash over a string's characters,
starting from 0. -/
def jsHash (s : List Char) : ℤ :=
  s.foldl hashStep 0

/-- Digit character for base-36 (`0`–`9`, then `a`–`z`), as JavaScript
`Number.prototype.toString(36)` uses. -/
def digitChar36 (d : ℕ) : Char :=
  if d < 10 then Char.ofNat (48 + d) else Char.ofNat (97 + (d - 10))

/-- Digits of `n` in base 36, most significant first; `fuel` bounds the
recursion (any `fuel ≥ n + 1` is enough). -/
def base36Digits : ℕ → ℕ → List Char
  | 0, _ => []
  | _ + 1, 0 => []
  | fuel + 1, n => base36Digits fuel (n / 36) ++ [digitChar36 (n % 36)]

/-- `n.toString(36)` for a natural number. -/
def natToBase36 (n : ℕ) : String :=
  if n = 0 then "0" else ⟨base36Digits (n + 1) n⟩

/-- `i.toString(36)` for a (possibly negative) integer, as JavaScript:
a leading `-` followed by the base-36 digits of the magnitude. -/
def intToBase36 (i : ℤ) : String :=
  if i < 0 then "-" ++ natToBase36 i.natAbs else natToBase36 i.toNat

/-- `hashSamples(samples)`: map every sample to `` `${rpm},${watts}` ``,
sort lexicographically (JavaScript's default `Array.sort` compares strings by
UTF-16 code units; modelled on the underlying character lists, whose
lexicographic order coincides for these ASCII strings), join with `"|"`,
run the rolling hash, and render in base 36. -/
def hashSamples (samples : List Sample) : String :=
  let sampleStrings := (samples.map (fun s => (sampleKeyString s).data)).insertionSort (· ≤ ·)
  let sampleString := List.intercalate ['|'] sampleStrings
  intToBase36 (jsHash sampleString)

/-- `generateCalibrationKey(calibration)`: `` `${damper}-${samplesHash}` `` —
the sync fingerprint of a calibration profile. -/
def generateCalibrationKey (c : CalibrationProfile) : String :=
  jsNumToString c.damper ++ "-" ++ hashSamples c.samples

/-- The result record of `syncCalibrations`. -/
structure SyncResult where
  uploaded : ℕ
  downloaded : ℕ
  conflicts : ℕ
  errors : List String
deriving DecidableEq, Repr

/-- The two replicas `syncCalibrations` reconciles: the local persistence
store and the remote (cloud) store behind `/api/calibrations`. -/
structure SyncState where
  locals : List CalibrationProfile
  remotes : List CalibrationProfile
deriving DecidableEq, Repr

/-- The environment of one `syncCalibrations` call: connectivity, the
failure behaviour of each external operation (with the message each failure
stringifies to), the local clock (`Date.now()`), and the remote store's
id/timestamp assignment for uploaded profiles. -/
structure SyncEnv where
  online : Bool
  localReadFail : Bool
  localReadErr : String
  fetchFail : Bool
  fetchErr : String
  uploadFails : CalibrationProfile → Bool
  uploadErr : CalibrationProfile → String
  downloadFails : CalibrationProfile → Bool
  downloadErr : CalibrationProfile → String
  now : ℤ
  remoteId : CalibrationProfile → String
  remoteNow : ℤ

/-- `downloadCalibration`: strip the cloud id and timestamps and store
locally with fresh `Date.now()` timestamps (the local store assigns its own
id on save, modelled as still absent; `modality` is not copied by the code). -/
def stripProfile (env : SyncEnv) (c : CalibrationProfile) : CalibrationProfile :=
  { id := none, modality := none, damper := c.damper, a := c.a, b := c.b, r2 := c.r2,
    samples := c.samples, created_at := env.now, updated_at := env.now }

/-- `uploadCalibration` as observed through the remote store (the
`/api/calibrations` POST handler and `SupabaseService.saveCalibrationProfile`):
the profile's damper, coefficients and samples are stored unchanged, under a
fresh remote id and remote timestamps. -/
def uploadedVersion (env : SyncEnv) (c : CalibrationProfile) : CalibrationProfile :=
  { c with id := some (env.remoteId c), created_at := env.remoteNow, updated_at := env.remoteNow }

/-- `Map.set` on a string-keyed JavaScript `Map` modelled as an association
list in insertion order: overwriting an existing key keeps its position. -/
def mapSet (m : List (String × CalibrationProfile)) (k : String) (v : CalibrationProfile) :
    List (String × CalibrationProfile) :=
  if m.any (fun p => p.1 == k) then m.map (fun p => if p.1 == k then (k, v) else p)
  else m ++ [(k, v)]

/-- Build the `Map` keyed by `generateCalibrationKey` from a profile list
(the `localMap` / `cloudMap` of `syncCalibrations`). -/
def buildMap (l : List CalibrationProfile) : List (String × CalibrationProfile) :=
  l.foldl (fun m c => mapSet m (generateCalibrationKey c) c) []

/-- `Map.has(key)`. -/
def hasKey (m : List (String × CalibrationProfile)) (k : String) : Bool :=
  m.any (fun p => p.1 == k)

/-- The upload loop of `syncCalibrations`: for every entry of `localMap`
whose key is absent from `cloudMap`, try `uploadCalibration` — on success
increment `uploaded` and the remote store gains the profile, on failure
append to `errors`. -/
def processUploads (env : SyncEnv) (cloudMap : List (String × CalibrationProfile)) :
    List (String × CalibrationProfile) → SyncState → SyncResult → SyncState × SyncResult
  | [], st, r => (st, r)
  | (k, c) :: rest, st, r =>
      if hasKey cloudMap k then processUploads env cloudMap rest st r
      else if env.uploadFails c then
        processUploads env cloudMap rest st
          { r with errors := r.errors ++ ["Failed to upload calibration: " ++ env.uploadErr c] }
      else
        processUploads env cloudMap rest
          { st with remotes := st.remotes ++ [uploadedVersion env c] }
          { r with uploaded := r.uploaded + 1 }

/-- The download loop of `syncCalibrations`: for every entry of `cloudMap`
whose key is absent from `localMap`, try `downloadCalibration` — on success
increment `downloaded` and the local store gains the stripped profile with
fresh timestamps, on failure append to `errors`. -/
def processDownloads (env : SyncEnv) (localMap : List (String × CalibrationProfile)) :
    List (String × CalibrationProfile) → SyncState → SyncResult → SyncState × SyncResult
  | [], st, r => (st, r)
  | (k, c) :: rest, st, r =>
      if hasKey localMap k then processDownloads env localMap rest st r
      else if env.downloadFails c then
        processDownloads env localMap rest st
          { r with errors := r.errors ++ ["Failed to download calibration: " ++ env.downloadErr c] }
      else
        processDownloads env localMap rest
          { st with locals := st.locals ++ [stripProfile env c] }
          { r with downloaded := r.downloaded + 1 }

/-- `syncCalibrations(userId)`: throws `OfflineError` when offline; then,
inside a `try` that converts any setup failure (local read, remote fetch)
into a `Sync failed: ...` entry of `errors` and an early summary return,
builds both fingerprint maps and runs the upload and download loops.
Returns the summary together with the resulting replica states. -/
def syncCalibrations (env : SyncEnv) (st : SyncState) :
    Except String (SyncResult × SyncState) :=
  if !env.online then .error "Cannot sync while offline"
  else
    let result : SyncResult := ⟨0, 0, 0, []⟩
    if env.localReadFail then
      .ok ({ result with errors := ["Sync failed: " ++ env.localReadErr] }, st)
    else if env.fetchFail then
      .ok ({ result with errors := ["Sync failed: " ++ env.fetchErr] }, st)
    else
      let localMap := buildMap st.locals
      let cloudMap := buildMap st.remotes
      let (st1, r1) := processUploads env cloudMap localMap st result
      let (st2, r2) := processDownloads env localMap cloudMap st1 r1
      .ok (r2, st2)

/-! ## Concrete fixtures used by witnesses and counterexamples -/

/-- A three-sample bike list whose watts are all identical (log-space variance
zero), with distinct truthy rpm values. -/
def constWattsSamples : List Sample :=
  [⟨some 60, none, 200, .manual, 0⟩, ⟨some 70, none, 200, .manual, 1⟩,
   ⟨some 80, none, 200, .manual, 2⟩]

/-- A base sync environment: online, every external operation succeeding. -/
def envBase : SyncEnv :=
  ⟨true, false, "local read failed", false, "fetch failed",
   fun _ => false, fun _ => "upload failed", fun _ => false, fun _ => "download failed",
   1000, fun _ => "uuid-1", 2000⟩

/-- A sync environment whose initial remote fetch fails (non-ok response). -/
def envFetchFail : SyncEnv :=
  { envBase with
    fetchFail := true
    fetchErr := "Failed to fetch cloud calibrations: Internal Server Error" }

/-- A sync environment reporting offline. -/
def envOffline : SyncEnv :=
  { envBase with online := false }

/-- A local-only calibration profile. -/
def profLocal : CalibrationProfile :=
  ⟨some "1", some .bike, 5, 1, 3, 1,
   [⟨some 60, none, 120, .manual, 10⟩, ⟨some 80, none, 250, .ble, 11⟩], 100, 100⟩

/-- A remote-only calibration profile (different damper and samples). -/
def profRemote : CalibrationProfile :=
  ⟨some "uuid-7", some .bike, 7, 2, 3, 1,
   [⟨some 65, none, 150, .manual, 20⟩, ⟨some 90, none, 320, .ble, 21⟩], 200, 200⟩

/-- A row profile (every sample's `rpm` absent). -/
def rowProfA : CalibrationProfile :=
  ⟨some "3", some .row, 4, 1, 1, 1,
   [⟨none, some 110, 263, .manual, 30⟩, ⟨none, some 120, 202, .manual, 31⟩,
    ⟨none, some 130, 159, .manual, 32⟩], 300, 300⟩

/-- The same row profile as seen on another replica: a UUID id, different
timestamps, and different `pace_500` values — but the same damper and the
same `(rpm, watts)` pairs. -/
def rowProfB : CalibrationProfile :=
  ⟨some "uuid-9", none, 4, 1, 1, 1,
   [⟨none, some 111, 263, .ble, 90⟩, ⟨none, some 121, 202, .ble, 91⟩,
    ⟨none, some 131, 159, .ble, 92⟩], 900, 901⟩

/-- A bike profile with two samples in one order. -/
def permProfA : CalibrationProfile :=
  ⟨some "5", some .bike, 6, 2, 3, 1,
   [⟨some 60, none, 120, .manual, 40⟩, ⟨some 80, none, 250, .ble, 41⟩], 400, 400⟩

/-- The same profile on another replica: samples permuted, storage id a UUID,
fresh timestamps. -/
def permProfB : CalibrationProfile :=
  ⟨some "uuid-8", some .bike, 6, 2, 3, 1,
   [⟨some 80, none, 250, .ble, 80⟩, ⟨some 60, none, 120, .manual, 81⟩], 800, 800⟩

/-- A same-modality workout targeting watts on a RowErg (used to refute the
claim that row targets get the stroke-rate formula). -/
def rowWattsWorkout : Workout :=
  ⟨"w-row", .row, .row, .watts, 5, [⟨none, some 300, 270⟩], 45⟩

/-- A cross-modality (row to bike) workout with a 1 m distance interval at
1:50/500 m pace — its elapsed time rounds to 0 seconds. -/
def tinyCrossWorkout : Workout :=
  ⟨"w-tiny", .row, .bike, .pace_500, 5, [⟨some 1, none, 110⟩], 45⟩

/-- A cross-modality workout with an ordinary 250 m distance interval. -/
def crossWorkout : Workout :=
  ⟨"w-cross", .row, .bike, .pace_500, 5, [⟨some 250, none, 110⟩], 45⟩

/-- An `rpm`-spec workout with no intervals. -/
def emptyRpmWorkout : Workout :=
  ⟨"w-rpm0", .bike, .row, .rpm, 5, [], 45⟩

/-- An `rpm`-spec workout with one interval. -/
def rpmWorkout : Workout :=
  ⟨"w-rpm1", .bike, .row, .rpm, 5, [⟨some 1000, none, 80⟩], 45⟩

/-- An `rpm`-spec, duration-driven workout: with a calibration supplied its
conversion succeeds. -/
def rpmDurWorkout : Workout :=
  ⟨"w-rpm2", .bike, .row, .rpm, 5, [⟨none, some 300, 80⟩], 45⟩

/-- The fitted bike calibration used by the converter fixtures. -/
def bikeCal : CalibrationProfile :=
  ⟨some "c", some .bike, 5, 13/5000, 16/5, 49/50, [], 0, 0⟩

/-! ## Claim C1 — pace/watts round trip -/

/-- Core algebraic fact: composing the Concept2 formula with its inverse on
the 500 m pace is the identity for positive pace. -/
lemma pace500_round_trip (x : ℝ) (hx : 0 < x) :
    ((2.8 : ℝ) / (2.8 / (x / 500) ^ (3 : ℕ))) ^ ((1 : ℝ) / 3) * 500 = x := by
  have hy : (0 : ℝ) < x / 500 := by positivity
  have h3 : (0 : ℝ) < (x / 500) ^ (3 : ℕ) := by positivity
  have hsimp : (2.8 : ℝ) / (2.8 / (x / 500) ^ (3 : ℕ)) = (x / 500) ^ (3 : ℕ) := by
    rw [div_div_eq_mul_div]
    rw [mul_comm, mul_div_assoc, div_self (by norm_num : (2.8:ℝ) ≠ 0), mul_one]
  rw [hsimp, ← Real.rpow_natCast (x / 500) 3, ← Real.rpow_mul hy.le]
  have h13 : ((3 : ℕ) : ℝ) * ((1 : ℝ) / 3) = 1 := by norm_num
  rw [h13, Real.rpow_one]
  field_simp

/-- Claim C1: for every pace `p > 0` and both unit flags,
`wattsToPace (paceToWatts p iso) iso` equals `p` exactly (hence within
0.1 s): `wattsToPace` is the algebraic inverse of `paceToWatts`. -/
theorem wattsToPace_paceToWatts_roundTrip (p : ℝ) (iso : Bool) (hp : 0 < p) :
    wattsToPace (paceToWatts p iso) iso = p ∧
      |wattsToPace (paceToWatts p iso) iso - p| ≤ 1 / 10 := by
  have key : wattsToPace (paceToWatts p iso) iso = p := by
    cases iso with
    | true =>
        show ((2.8 : ℝ) / (2.8 / (p / 500) ^ (3 : ℕ))) ^ ((1 : ℝ) / 3) * 500 = p
        exact pace500_round_trip p hp
    | false =>
        show ((2.8 : ℝ) / (2.8 / (p / 2 / 500) ^ (3 : ℕ))) ^ ((1 : ℝ) / 3) * 500 * 2 = p
        rw [pace500_round_trip (p / 2) (by positivity)]
        ring
  refine ⟨key, ?_⟩
  rw [key]
  simp

/-- Witness for C1 at the spec's literal scenarios: 1:50/500 m (row) and
3:40/1000 m (bike). -/
theorem wattsToPace_paceToWatts_roundTrip_witness :
    (0 : ℝ) < 110 ∧ wattsToPace (paceToWatts 110 true) true = 110 ∧
      wattsToPace (paceToWatts 220 false) false = 220 :=
  ⟨by norm_num, (wattsToPace_paceToWatts_roundTrip 110 true (by norm_num)).1,
   (wattsToPace_paceToWatts_roundTrip 220 false (by norm_num)).1⟩

/-! ## Claim C8 — `parsePace` error behaviour -/

/-- `NaN` propagates through JavaScript addition (left). -/
lemma jsAdd_none_left (y : Option ℚ) : jsAdd none y = none := by cases y <;> rfl

/-- `NaN` propagates through JavaScript addition (right). -/
lemma jsAdd_none_right (x : Option ℚ) : jsAdd x none = none := by cases x <;> rfl

/-- `NaN` propagates through JavaScript multiplication (left). -/
lemma jsMul_none_left (y : Option ℚ) : jsMul none y = none := by cases y <;> rfl

/-- Claim C8 (amended): `parsePace` fails with `InvalidPaceFormat` exactly
when the input does not split on `':'` into two parts; when it does split
into two parts it always returns a value — `minutes * 60 + seconds +
tenths / 10` when every part parses, and `NaN` (not an error) when the
minutes, seconds or tenths part fails to parse as a number. -/
theorem parsePace_spec (s : String) :
    ((∃ e, parsePace s = Except.error e) ↔ (jsSplitChar s.data ':').length ≠ 2) ∧
    (∀ p1 p2 : List Char, jsSplitChar s.data ':' = [p1, p2] →
      ∀ m sec t : ℚ, jsParseInt p1 = some m →
        jsParseInt ((jsSplitChar p2 '.').getD 0 []) = some sec →
        ((jsSplitChar p2 '.').length > 1 → jsParseInt ((jsSplitChar p2 '.').getD 1 []) = some t) →
        ((jsSplitChar p2 '.').length ≤ 1 → t = 0) →
        parsePace s = .ok (some (m * 60 + sec + t / 10))) ∧
    (∀ p1 p2 : List Char, jsSplitChar s.data ':' = [p1, p2] →
      (jsParseInt p1 = none ∨ jsParseInt ((jsSplitChar p2 '.').getD 0 []) = none ∨
        ((jsSplitChar p2 '.').length > 1 ∧ jsParseInt ((jsSplitChar p2 '.').getD 1 []) = none)) →
      parsePace s = .ok none) := by
  refine ⟨⟨?_, ?_⟩, ?_, ?_⟩
  · rintro ⟨e, he⟩ hlen
    simp only [parsePace, if_neg (not_not_intro hlen)] at he
    exact Except.noConfusion he
  · intro hlen
    exact ⟨"Invalid pace format", by simp only [parsePace, if_pos hlen]⟩
  · intro p1 p2 hsplit m sec t hm hsec ht1 ht2
    simp only [parsePace]
    rw [hsplit, if_neg (by simp)]
    simp only [List.getD_cons_zero, List.getD_cons_succ]
    rw [hm, hsec]
    by_cases hl : (jsSplitChar p2 '.').length > 1
    · rw [if_pos hl, ht1 hl]
      simp [jsMul, jsAdd, jsDivC]
    · rw [if_neg hl, ht2 (by omega)]
      simp [jsMul, jsAdd, jsDivC]
  · intro p1 p2 hsplit hfail
    simp only [parsePace]
    rw [hsplit, if_neg (by simp)]
    simp only [List.getD_cons_zero, List.getD_cons_succ]
    rcases hfail with hm | hsec | ⟨hl, ht⟩
    · rw [hm]
      simp [jsMul_none_left, jsAdd_none_left]
    · rw [hsec]
      simp [jsAdd_none_right, jsAdd_none_left]
    · rw [if_pos hl, ht]
      simp [jsDivC, jsAdd_none_right]

/-- Witness for C8 at `"2:05.7"`: the split has two parts, every part
parses, and the result is `2 * 60 + 5 + 7 / 10`. -/
theorem parsePace_spec_witness :
    jsSplitChar "2:05.7".data ':' = [['2'], ['0', '5', '.', '7']] ∧
      parsePace "2:05.7" = .ok (some (((2 : ℕ) : ℚ) * 60 + ((5 : ℕ) : ℚ) + ((7 : ℕ) : ℚ) / 10)) :=
  ⟨by decide, (parsePace_spec "2:05.7").2.1 ['2'] ['0', '5', '.', '7'] (by decide)
    ((2 : ℕ) : ℚ) ((5 : ℕ) : ℚ) ((7 : ℕ) : ℚ) (by decide) (by decide)
    (fun _ => by decide) (fun h => absurd h (by decide))⟩

/-- Counterexample to C8 as stated: in `"a:10"` the minutes part fails to
parse as a number, yet `parsePace` does not fail — it returns `NaN`
(modelled `none`). -/
theorem parsePace_no_nan_check : parsePace "a:10" = Except.ok none := by rfl

/-! ## Claim C9 — unguarded bike-branch `R²` divides by zero variance -/

/-- Shifting the accumulator out of a real `foldl (+)`. -/
lemma foldl_add_shift (l : List ℝ) : ∀ a : ℝ, l.foldl (· + ·) a = a + l.foldl (· + ·) 0 := by
  induction l with
  | nil => intro a; simp
  | cons x xs ih =>
      intro a
      simp only [List.foldl_cons]
      rw [ih (a + x), ih (0 + x)]
      ring

/-- `sumR` of a cons. -/
lemma sumR_cons (x : ℝ) (l : List ℝ) : sumR (x :: l) = x + sumR l := by
  unfold sumR
  simp only [List.foldl_cons]
  rw [foldl_add_shift]
  ring

/-- `sumR` over a pointwise-constant map. -/
lemma sumR_map_const {α : Type} (l : List α) (f : α → ℝ) (c : ℝ)
    (h : ∀ x ∈ l, f x = c) : sumR (l.map f) = l.length * c := by
  induction l with
  | nil => simp [sumR]
  | cons x xs ih =>
      simp only [List.map_cons, List.length_cons]
      rw [sumR_cons, h x (by simp), ih (fun y hy => h y (by simp [hy]))]
      push_cast
      ring

/-- Pulling a constant factor out of a summed map. -/
lemma sumR_map_mul_const {α : Type} (l : List α) (f : α → ℝ) (c : ℝ) :
    sumR (l.map fun x => f x * c) = sumR (l.map f) * c := by
  induction l with
  | nil => simp [sumR]
  | cons x xs ih =>
      simp only [List.map_cons]
      rw [sumR_cons, sumR_cons, ih]
      ring

/-- Claim C9: on a bike sample list of length ≥ 3 with truthy rpm in which
every sample has the same watts, the log-space `totalSumSquares` is 0 (and so
is `residualSumSquares`), and `fitPowerCurve`'s bike branch still computes
`r2 = 1 - residualSumSquares / totalSumSquares` — a division by zero with
zero numerator, with no `SStot = 0` guard (the row branch has one). -/
theorem fitPowerCurve_bike_unguarded_r2 (samples : List Sample) (w0 : ℚ)
    (hlen : 3 ≤ samples.length)
    (hrpm : samples.all (fun s => jsTruthy s.rpm) = true)
    (hw : ∀ s ∈ samples, s.watts = w0) :
    bikeTotalSS samples = 0 ∧ bikeResidualSS samples = 0 ∧
      fitPowerCurve samples .bike =
        .ok ⟨Real.exp (bikeLogA samples), bikeSlope samples,
             1 - bikeResidualSS samples / bikeTotalSS samples⟩ := by
  set c := Real.log ((w0 : ℚ) : ℝ) with hc
  have hn : ((samples.length : ℕ) : ℝ) ≠ 0 := by
    have : (0 : ℕ) < samples.length := by omega
    positivity
  have hY : ∀ s ∈ samples, Real.log ((s.watts : ℚ) : ℝ) = c := by
    intro s hs
    rw [hw s hs]
  have sumY : sumR (bikeLogY samples) = samples.length * c := by
    unfold bikeLogY
    exact sumR_map_const _ _ _ hY
  have meanY : bikeMeanLogY samples = c := by
    unfold bikeMeanLogY
    rw [sumY, mul_comm, mul_div_assoc, div_self hn, mul_one]
  have totSS : bikeTotalSS samples = 0 := by
    unfold bikeTotalSS
    unfold bikeLogY
    rw [List.map_map]
    rw [sumR_map_const _ _ 0 (fun s hs => by
      simp only [Function.comp_apply]
      rw [hY s hs, meanY]
      ring)]
    ring
  have sumXY : sumR (((bikeLogX samples).zip (bikeLogY samples)).map (fun p => p.1 * p.2)) =
      sumR (bikeLogX samples) * c := by
    unfold bikeLogX bikeLogY
    rw [List.zip_map', List.map_map]
    have : ((fun p : ℝ × ℝ => p.1 * p.2) ∘ fun s : Sample =>
        (Real.log ((s.rpm.getD 0 : ℚ) : ℝ), Real.log ((s.watts : ℚ) : ℝ))) =
        fun s : Sample => Real.log ((s.rpm.getD 0 : ℚ) : ℝ) * Real.log ((s.watts : ℚ) : ℝ) := by
      funext s
      simp
    rw [this]
    rw [List.map_congr_left (fun s hs => by rw [hY s hs])]
    exact sumR_map_mul_const _ _ _
  have slope0 : bikeSlope samples = 0 := by
    simp only [bikeSlope]
    rw [sumXY, sumY]
    have : (samples.length : ℝ) * (sumR (bikeLogX samples) * c) -
        sumR (bikeLogX samples) * ((samples.length : ℝ) * c) = 0 := by ring
    rw [this, zero_div]
  have logAc : bikeLogA samples = c := by
    unfold bikeLogA
    rw [slope0, sumY]
    rw [zero_mul, sub_zero, mul_comm, mul_div_assoc, div_self hn, mul_one]
  have resSS : bikeResidualSS samples = 0 := by
    unfold bikeResidualSS
    unfold bikeLogX bikeLogY
    rw [List.zip_map', List.map_map]
    rw [sumR_map_const _ _ 0 (fun s hs => by
      simp only [Function.comp_apply]
      rw [logAc, slope0]
      have : Real.log ((s.watts : ℚ) : ℝ) = c := hY s hs
      rw [this]
      ring)]
    ring
  refine ⟨totSS, resSS, ?_⟩
  unfold fitPowerCurve
  rw [if_neg (by omega), if_pos hrpm]

/-- Witness for C9: three bike samples at 60/70/80 rpm, all at 200 W. -/
theorem fitPowerCurve_bike_unguarded_r2_witness :
    3 ≤ constWattsSamples.length ∧
      constWattsSamples.all (fun s => jsTruthy s.rpm) = true ∧
      bikeTotalSS constWattsSamples = 0 ∧
      fitPowerCurve constWattsSamples .bike =
        .ok ⟨Real.exp (bikeLogA constWattsSamples), bikeSlope constWattsSamples,
             1 - bikeResidualSS constWattsSamples / bikeTotalSS constWattsSamples⟩ :=
  ⟨by decide, by decide,
   (fitPowerCurve_bike_unguarded_r2 constWattsSamples 200 (by decide) (by decide)
     (by decide)).1,
   (fitPowerCurve_bike_unguarded_r2 constWattsSamples 200 (by decide) (by decide)
     (by decide)).2.2⟩

/-! ## Claim C4 — fingerprint order- and identifier-independence -/

/-- `hashSamples` is invariant under permutations of the per-sample key
strings: sorting with a linear order canonicalises the multiset. -/
lemma hashSamples_eq_of_perm (l1 l2 : List Sample)
    (h : (l1.map (fun s => (sampleKeyString s).data)).Perm
      (l2.map (fun s => (sampleKeyString s).data))) :
    hashSamples l1 = hashSamples l2 := by
  have hsort : (l1.map (fun s => (sampleKeyString s).data)).insertionSort (· ≤ ·) =
      (l2.map (fun s => (sampleKeyString s).data)).insertionSort (· ≤ ·) :=
    List.eq_of_perm_of_sorted
      ((List.perm_insertionSort _ _).trans (h.trans (List.perm_insertionSort _ _).symm))
      (List.sorted_insertionSort _ _) (List.sorted_insertionSort _ _)
  unfold hashSamples
  rw [hsort]

/-- The per-sample key string reads only the sample's `rpm` and `watts`. -/
lemma sampleKeyChars_factor (l : List Sample) :
    l.map (fun s => (sampleKeyString s).data) =
      (l.map (fun s => (s.rpm, s.watts))).map
        (fun p : Option ℚ × ℚ => (jsOptNumToString p.1 ++ "," ++ jsNumToString p.2).data) := by
  rw [List.map_map]
  rfl

/-- Claim C4: the sync fingerprint is identical for two profiles with equal
damper whose sample lists carry the same `(rpm, watts)` pairs up to
reordering; storage ids, timestamps and all other fields are irrelevant. -/
theorem generateCalibrationKey_order_id_independent (p1 p2 : CalibrationProfile)
    (hd : p1.damper = p2.damper)
    (hs : (p1.samples.map (fun s => (s.rpm, s.watts))).Perm
      (p2.samples.map (fun s => (s.rpm, s.watts)))) :
    generateCalibrationKey p1 = generateCalibrationKey p2 := by
  have hperm : (p1.samples.map (fun s => (sampleKeyString s).data)).Perm
      (p2.samples.map (fun s => (sampleKeyString s).data)) := by
    rw [sampleKeyChars_factor, sampleKeyChars_factor]
    exact hs.map _
  unfold generateCalibrationKey
  rw [hd, hashSamples_eq_of_perm _ _ hperm]

/-- Witness for C4: the same two-sample profile stored on two replicas with
permuted samples, different storage ids and different timestamps receives
the same fingerprint. -/
theorem generateCalibrationKey_order_id_independent_witness :
    (permProfA.samples.map (fun s => (s.rpm, s.watts))).Perm
      (permProfB.samples.map (fun s => (s.rpm, s.watts))) ∧
    generateCalibrationKey permProfA = generateCalibrationKey permProfB :=
  ⟨by decide,
   generateCalibrationKey_order_id_independent permProfA permProfB rfl (by decide)⟩

/-! ## Sync-loop characterisation lemmas (for C5, C6, C10) -/

/-- `hasKey` is membership among the map's keys. -/
lemma hasKey_iff_mem_keys (m : List (String × CalibrationProfile)) (k : String) :
    hasKey m k = true ↔ k ∈ m.map Prod.fst := by
  unfold hasKey
  rw [List.any_eq_true]
  constructor
  · rintro ⟨p, hp, he⟩
    exact List.mem_map.mpr ⟨p, hp, (beq_iff_eq.mp he)⟩
  · intro h
    rcases List.mem_map.mp h with ⟨p, hp, he⟩
    exact ⟨p, hp, beq_iff_eq.mpr he⟩

/-- `hasKey` as an existence of a binding. -/
lemma hasKey_iff_exists (m : List (String × CalibrationProfile)) (k : String) :
    hasKey m k = true ↔ ∃ v, (k, v) ∈ m := by
  rw [hasKey_iff_mem_keys]
  constructor
  · intro h
    rcases List.mem_map.mp h with ⟨p, hp, he⟩
    exact ⟨p.2, by rw [← he]; exact hp⟩
  · rintro ⟨v, hv⟩
    exact List.mem_map.mpr ⟨(k, v), hv, rfl⟩

/-- The key list of a `mapSet`: unchanged on overwrite, extended otherwise. -/
lemma mapSet_keys (m : List (String × CalibrationProfile)) (k : String) (v : CalibrationProfile) :
    (mapSet m k v).map Prod.fst =
      if hasKey m k then m.map Prod.fst else m.map Prod.fst ++ [k] := by
  unfold mapSet hasKey
  by_cases h : m.any (fun p => p.1 == k)
  · rw [if_pos h, if_pos h, List.map_map]
    refine List.map_congr_left ?_
    intro p _
    by_cases hp : p.1 == k
    · simp only [Function.comp_apply, if_pos hp]
      exact (beq_iff_eq.mp hp).symm
    · simp only [Function.comp_apply, if_neg hp]
  · rw [if_neg h, if_neg h, List.map_append]
    rfl

/-- Membership in a `mapSet`: an old binding or the new one. -/
lemma mem_mapSet (m : List (String × CalibrationProfile)) (k : String)
    (v : CalibrationProfile) (p : String × CalibrationProfile) (hp : p ∈ mapSet m k v) :
    p ∈ m ∨ p = (k, v) := by
  unfold mapSet at hp
  by_cases h : m.any (fun q => q.1 == k)
  · rw [if_pos h] at hp
    rcases List.mem_map.mp hp with ⟨q, hq, he⟩
    by_cases hqk : q.1 == k
    · right
      rw [← he, if_pos hqk]
    · left
      rwa [← he, if_neg hqk]
  · rw [if_neg h] at hp
    rcases List.mem_append.mp hp with h1 | h1
    · exact Or.inl h1
    · exact Or.inr (List.mem_singleton.mp h1)

/-- Keys present after folding `mapSet` over a profile list. -/
lemma foldl_mapSet_keys (k : String) :
    ∀ (l : List CalibrationProfile) (m : List (String × CalibrationProfile)),
      hasKey (l.foldl (fun m c => mapSet m (generateCalibrationKey c) c) m) k = true ↔
        hasKey m k = true ∨ k ∈ l.map generateCalibrationKey := by
  intro l
  induction l with
  | nil => intro m; simp
  | cons c cs ih =>
      intro m
      simp only [List.foldl_cons, List.map_cons, List.mem_cons]
      rw [ih]
      rw [hasKey_iff_mem_keys, mapSet_keys]
      by_cases h : hasKey m (generateCalibrationKey c)
      · rw [if_pos h, ← hasKey_iff_mem_keys]
        constructor
        · rintro (h1 | h1)
          · exact Or.inl h1
          · exact Or.inr (Or.inr h1)
        · rintro (h1 | h1 | h1)
          · exact Or.inl h1
          · rw [h1] at *
            exact Or.inl h
          · exact Or.inr h1
      · rw [if_neg h, List.mem_append, List.mem_singleton, ← hasKey_iff_mem_keys]
        constructor
        · rintro ((h1 | h1) | h1)
          · exact Or.inl h1
          · exact Or.inr (Or.inl h1)
          · exact Or.inr (Or.inr h1)
        · rintro (h1 | h1 | h1)
          · exact Or.inl (Or.inl h1)
          · exact Or.inl (Or.inr h1)
          · exact Or.inr h1

/-- A key is in `buildMap l` exactly when it is some profile's fingerprint. -/
lemma hasKey_buildMap (l : List CalibrationProfile) (k : String) :
    hasKey (buildMap l) k = true ↔ k ∈ l.map generateCalibrationKey := by
  unfold buildMap
  rw [foldl_mapSet_keys]
  simp [hasKey]

/-- Every binding of `buildMap l` pairs a profile of `l` with its own
fingerprint. -/
lemma mem_buildMap (l : List CalibrationProfile) :
    ∀ p ∈ buildMap l, p.1 = generateCalibrationKey p.2 ∧ p.2 ∈ l := by
  have main : ∀ (ls : List CalibrationProfile) (m : List (String × CalibrationProfile)),
      (∀ p ∈ m, p.1 = generateCalibrationKey p.2 ∧ p.2 ∈ l) →
      (∀ c ∈ ls, c ∈ l) →
      ∀ p ∈ ls.foldl (fun m c => mapSet m (generateCalibrationKey c) c) m,
        p.1 = generateCalibrationKey p.2 ∧ p.2 ∈ l := by
    intro ls
    induction ls with
    | nil => intro m hm _ p hp; exact hm p hp
    | cons c cs ih =>
        intro m hm hsub p hp
        simp only [List.foldl_cons] at hp
        refine ih (mapSet m (generateCalibrationKey c) c) ?_ (fun d hd => hsub d (by simp [hd])) p hp
        intro q hq
        rcases mem_mapSet _ _ _ _ hq with h1 | h1
        · exact hm q h1
        · rw [h1]
          exact ⟨rfl, hsub c (by simp)⟩
  intro p hp
  exact main l [] (by simp) (fun c hc => hc) p hp

/-- Full characterisation of the upload loop: skipped entries (key already
remote), failed uploads (error appended), successful uploads (counted and
appended to the remote store). -/
lemma processUploads_spec (env : SyncEnv) (cloudMap : List (String × CalibrationProfile)) :
    ∀ (entries : List (String × CalibrationProfile)) (st : SyncState) (r : SyncResult),
      processUploads env cloudMap entries st r =
        (⟨st.locals,
          st.remotes ++ (entries.filter
            (fun p => !hasKey cloudMap p.1 && !env.uploadFails p.2)).map
              (fun p => uploadedVersion env p.2)⟩,
         ⟨r.uploaded + (entries.filter
            (fun p => !hasKey cloudMap p.1 && !env.uploadFails p.2)).length,
          r.downloaded, r.conflicts,
          r.errors ++ (entries.filter
            (fun p => !hasKey cloudMap p.1 && env.uploadFails p.2)).map
              (fun p => "Failed to upload calibration: " ++ env.uploadErr p.2)⟩) := by
  intro entries
  induction entries with
  | nil => intro st r; simp [processUploads]
  | cons p rest ih =>
      intro st r
      obtain ⟨k, c⟩ := p
      by_cases h1 : hasKey cloudMap k
      · have hstep : processUploads env cloudMap ((k, c) :: rest) st r =
            processUploads env cloudMap rest st r := by
          simp only [processUploads, if_pos h1]
        rw [hstep, ih]
        simp [List.filter_cons, h1]
      · by_cases h2 : env.uploadFails c
        · have hstep : processUploads env cloudMap ((k, c) :: rest) st r =
              processUploads env cloudMap rest st
                ⟨r.uploaded, r.downloaded, r.conflicts,
                 r.errors ++ ["Failed to upload calibration: " ++ env.uploadErr c]⟩ := by
            simp only [processUploads, if_neg h1, if_pos h2]
          rw [hstep, ih]
          simp [List.filter_cons, h1, h2]
        · have hstep : processUploads env cloudMap ((k, c) :: rest) st r =
              processUploads env cloudMap rest
                ⟨st.locals, st.remotes ++ [uploadedVersion env c]⟩
                ⟨r.uploaded + 1, r.downloaded, r.conflicts, r.errors⟩ := by
            simp only [processUploads, if_neg h1, if_neg h2]
          rw [hstep, ih]
          have hcond : (!hasKey cloudMap k && !env.uploadFails c) = true := by
            simp [h1, h2]
          have hcond2 : (!hasKey cloudMap k && env.uploadFails c) = false := by
            simp [h2]
          simp only [List.filter_cons, hcond, hcond2, if_true, if_false,
            List.map_cons, List.length_cons, List.append_assoc, List.cons_append,
            List.nil_append]
          refine Prod.ext rfl ?_
          simp only [SyncResult.mk.injEq, and_true, true_and]
          constructor
          · omega
          · rfl

/-- Full characterisation of the download loop, symmetric to the uploads. -/
lemma processDownloads_spec (env : SyncEnv) (localMap : List (String × CalibrationProfile)) :
    ∀ (entries : List (String × CalibrationProfile)) (st : SyncState) (r : SyncResult),
      processDownloads env localMap entries st r =
        (⟨st.locals ++ (entries.filter
            (fun p => !hasKey localMap p.1 && !env.downloadFails p.2)).map
              (fun p => stripProfile env p.2),
          st.remotes⟩,
         ⟨r.uploaded,
          r.downloaded + (entries.filter
            (fun p => !hasKey localMap p.1 && !env.downloadFails p.2)).length,
          r.conflicts,
          r.errors ++ (entries.filter
            (fun p => !hasKey localMap p.1 && env.downloadFails p.2)).map
              (fun p => "Failed to download calibration: " ++ env.downloadErr p.2)⟩) := by
  intro entries
  induction entries with
  | nil => intro st r; simp [processDownloads]
  | cons p rest ih =>
      intro st r
      obtain ⟨k, c⟩ := p
      by_cases h1 : hasKey localMap k
      · have hstep : processDownloads env localMap ((k, c) :: rest) st r =
            processDownloads env localMap rest st r := by
          simp only [processDownloads, if_pos h1]
        rw [hstep, ih]
        simp [List.filter_cons, h1]
      · by_cases h2 : env.downloadFails c
        · have hstep : processDownloads env localMap ((k, c) :: rest) st r =
              processDownloads env localMap rest st
                ⟨r.uploaded, r.downloaded, r.conflicts,
                 r.errors ++ ["Failed to download calibration: " ++ env.downloadErr c]⟩ := by
            simp only [processDownloads, if_neg h1, if_pos h2]
          rw [hstep, ih]
          simp [List.filter_cons, h1, h2]
        · have hstep : processDownloads env localMap ((k, c) :: rest) st r =
              processDownloads env localMap rest
                ⟨st.locals ++ [stripProfile env c], st.remotes⟩
                ⟨r.uploaded, r.downloaded + 1, r.conflicts, r.errors⟩ := by
            simp only [processDownloads, if_neg h1, if_neg h2]
          rw [hstep, ih]
          have hcond : (!hasKey localMap k && !env.downloadFails c) = true := by
            simp [h1, h2]
          have hcond2 : (!hasKey localMap k && env.downloadFails c) = false := by
            simp [h2]
          simp only [List.filter_cons, hcond, hcond2, if_true, if_false,
            List.map_cons, List.length_cons, List.append_assoc, List.cons_append,
            List.nil_append]
          refine Prod.ext rfl ?_
          simp only [SyncResult.mk.injEq, and_true, true_and]
          constructor
          · omega
          · rfl

/-- The full run of `syncCalibrations` when online with both initial reads
succeeding: uploads first, then downloads, with the counters, errors and
replica states they produce. -/
lemma syncCalibrations_run (env : SyncEnv) (st : SyncState)
    (h1 : env.online = true) (h2 : env.localReadFail = false)
    (h3 : env.fetchFail = false) :
    syncCalibrations env st =
      .ok (⟨((buildMap st.locals).filter
              (fun p => !hasKey (buildMap st.remotes) p.1 && !env.uploadFails p.2)).length,
            ((buildMap st.remotes).filter
              (fun p => !hasKey (buildMap st.locals) p.1 && !env.downloadFails p.2)).length,
            0,
            ((buildMap st.locals).filter
              (fun p => !hasKey (buildMap st.remotes) p.1 && env.uploadFails p.2)).map
                (fun p => "Failed to upload calibration: " ++ env.uploadErr p.2) ++
            ((buildMap st.remotes).filter
              (fun p => !hasKey (buildMap st.locals) p.1 && env.downloadFails p.2)).map
                (fun p => "Failed to download calibration: " ++ env.downloadErr p.2)⟩,
           ⟨st.locals ++ ((buildMap st.remotes).filter
              (fun p => !hasKey (buildMap st.locals) p.1 && !env.downloadFails p.2)).map
                (fun p => stripProfile env p.2),
            st.remotes ++ ((buildMap st.locals).filter
              (fun p => !hasKey (buildMap st.remotes) p.1 && !env.uploadFails p.2)).map
                (fun p => uploadedVersion env p.2)⟩) := by
  unfold syncCalibrations
  rw [h1, h2, h3]
  simp only [Bool.not_true, if_false, Bool.false_eq_true]
  rw [processUploads_spec, processDownloads_spec]
  simp

/-! ## Claim C6 — which sync failures throw -/

/-- Claim C6 (amended): `syncCalibrations` throws exactly when the
connectivity signal reports offline at entry; every other failure — the
initial local read, the initial remote fetch, and every per-item upload or
download — is caught, appended to the `errors` list, and the call still
returns the summary result.  The second conjunct exhibits the fetch-failure
summary explicitly. -/
theorem syncCalibrations_throws_iff_offline (env : SyncEnv) (st : SyncState) :
    ((∃ e, syncCalibrations env st = .error e) ↔ env.online = false) ∧
    (env.online = true → env.localReadFail = false → env.fetchFail = true →
      syncCalibrations env st =
        .ok (⟨0, 0, 0, ["Sync failed: " ++ env.fetchErr]⟩, st)) := by
  constructor
  · constructor
    · rintro ⟨e, he⟩
      by_contra hon
      have hon' : env.online = true := by
        cases h : env.online
        · exact absurd h hon
        · rfl
      unfold syncCalibrations at he
      rw [hon'] at he
      simp only [Bool.not_true, Bool.false_eq_true, if_false] at he
      by_cases h2 : env.localReadFail
      · rw [if_pos h2] at he
        exact Except.noConfusion he
      · rw [if_neg h2] at he
        by_cases h3 : env.fetchFail
        · rw [if_pos h3] at he
          exact Except.noConfusion he
        · rw [if_neg h3] at he
          rcases hp : processUploads env (buildMap st.remotes) (buildMap st.locals) st
            ⟨0, 0, 0, []⟩ with ⟨st1, r1⟩
          rw [hp] at he
          rcases hq : processDownloads env (buildMap st.locals) (buildMap st.remotes) st1 r1
            with ⟨st2, r2⟩
          rw [hq] at he
          exact Except.noConfusion he
    · intro hoff
      refine ⟨"Cannot sync while offline", ?_⟩
      unfold syncCalibrations
      rw [hoff]
      rfl
  · intro h1 h2 h3
    unfold syncCalibrations
    rw [h1, h2, h3]
    rfl

/-- Witness for C6: with the offline environment the call throws, and with
the online environment whose remote fetch fails it returns the summary. -/
theorem syncCalibrations_throws_iff_offline_witness :
    envOffline.online = false ∧
      (∃ e, syncCalibrations envOffline ⟨[profLocal], [profRemote]⟩ = .error e) ∧
      syncCalibrations envFetchFail ⟨[profLocal], [profRemote]⟩ =
        .ok (⟨0, 0, 0,
          ["Sync failed: " ++ envFetchFail.fetchErr]⟩, ⟨[profLocal], [profRemote]⟩) :=
  ⟨rfl,
   (syncCalibrations_throws_iff_offline envOffline ⟨[profLocal], [profRemote]⟩).1.mpr rfl,
   (syncCalibrations_throws_iff_offline envFetchFail ⟨[profLocal], [profRemote]⟩).2 rfl rfl rfl⟩

/-- Counterexample to C6 as stated: the initial remote fetch fails, yet the
call does not abort — it returns the summary with the failure recorded in
`errors`. -/
theorem syncCalibrations_fetch_failure_returns :
    syncCalibrations envFetchFail ⟨[], []⟩ =
      .ok (⟨0, 0, 0,
        ["Sync failed: Failed to fetch cloud calibrations: Internal Server Error"]⟩,
       ⟨[], []⟩) := by
  rfl

/-! ## Claim C10 — the fingerprint sees only damper and (rpm, watts) -/

/-- Claim C10: the sync fingerprint is a function of the damper and the
samples' `(rpm, watts)` pairs alone — `pace_500`, `source`, ids and
timestamps are ignored — and `syncCalibrations` treats two profiles with
equal fingerprints (for example two row profiles differing only in
`pace_500`) as the same profile: with one such profile on each replica it
uploads and downloads nothing and leaves both stores unchanged. -/
theorem fingerprint_semantic_identity :
    (∀ p1 p2 : CalibrationProfile, p1.damper = p2.damper →
      p1.samples.map (fun s => (s.rpm, s.watts)) =
        p2.samples.map (fun s => (s.rpm, s.watts)) →
      generateCalibrationKey p1 = generateCalibrationKey p2) ∧
    (∀ (env : SyncEnv) (l r : CalibrationProfile),
      env.online = true → env.localReadFail = false → env.fetchFail = false →
      generateCalibrationKey l = generateCalibrationKey r →
      syncCalibrations env ⟨[l], [r]⟩ = .ok (⟨0, 0, 0, []⟩, ⟨[l], [r]⟩)) := by
  constructor
  · intro p1 p2 hd hs
    have hperm : (p1.samples.map (fun s => (sampleKeyString s).data)).Perm
        (p2.samples.map (fun s => (sampleKeyString s).data)) := by
      rw [sampleKeyChars_factor, sampleKeyChars_factor, hs]
    unfold generateCalibrationKey
    rw [hd, hashSamples_eq_of_perm _ _ hperm]
  · intro env l r h1 h2 h3 hk
    rw [syncCalibrations_run env _ h1 h2 h3]
    have hbl : buildMap [l] = [(generateCalibrationKey l, l)] := rfl
    have hbr : buildMap [r] = [(generateCalibrationKey r, r)] := rfl
    have hck : hasKey [(generateCalibrationKey r, r)] (generateCalibrationKey l) = true := by
      simp [hasKey, hk]
    have hck2 : hasKey [(generateCalibrationKey l, l)] (generateCalibrationKey r) = true := by
      simp [hasKey, hk]
    simp only [hbl, hbr]
    simp [List.filter_cons, hck, hck2]

/-- Witness for C10: two row profiles with equal damper and equal
`(rpm, watts)` pairs (`rpm` absent throughout) but different `pace_500`
values, ids and timestamps get the same fingerprint, and a sync pass over
them transfers nothing. -/
theorem fingerprint_semantic_identity_witness :
    rowProfA.damper = rowProfB.damper ∧
      rowProfA.samples.map (fun s => (s.rpm, s.watts)) =
        rowProfB.samples.map (fun s => (s.rpm, s.watts)) ∧
      rowProfA.samples.map (fun s => s.pace_500) ≠
        rowProfB.samples.map (fun s => s.pace_500) ∧
      syncCalibrations envBase ⟨[rowProfA], [rowProfB]⟩ =
        .ok (⟨0, 0, 0, []⟩, ⟨[rowProfA], [rowProfB]⟩) :=
  ⟨rfl, by decide, by decide,
   fingerprint_semantic_identity.2 envBase rowProfA rowProfB rfl rfl rfl
     (fingerprint_semantic_identity.1 rowProfA rowProfB rfl (by decide))⟩

/-! ## Claim C5 — sync idempotence -/

/-- `downloadCalibration`'s stripping (fresh timestamps, dropped ids) does
not change the fingerprint. -/
lemma generateCalibrationKey_stripProfile (env : SyncEnv) (c : CalibrationProfile) :
    generateCalibrationKey (stripProfile env c) = generateCalibrationKey c := rfl

/-- The remote store's id/timestamp assignment on upload does not change the
fingerprint. -/
lemma generateCalibrationKey_uploadedVersion (env : SyncEnv) (c : CalibrationProfile) :
    generateCalibrationKey (uploadedVersion env c) = generateCalibrationKey c := rfl

/-- After transferring (via any fingerprint-preserving `f`) every profile of
`src` whose key is missing from `tgt`, every key of `src` is a key of the
extended `tgt`. -/
lemma mem_keys_map_transfer (f : CalibrationProfile → CalibrationProfile)
    (hf : ∀ c, generateCalibrationKey (f c) = generateCalibrationKey c)
    (src tgt : List CalibrationProfile) (k : String)
    (hk : k ∈ src.map generateCalibrationKey) :
    k ∈ (tgt ++ ((buildMap src).filter
      (fun p => !hasKey (buildMap tgt) p.1)).map (fun p => f p.2)).map
        generateCalibrationKey := by
  rw [List.map_append]
  by_cases hc : hasKey (buildMap tgt) k
  · exact List.mem_append.mpr (Or.inl ((hasKey_buildMap tgt k).mp hc))
  · have hL : hasKey (buildMap src) k = true := (hasKey_buildMap src k).mpr hk
    obtain ⟨v, hv⟩ := (hasKey_iff_exists _ _).mp hL
    obtain ⟨hk1, _⟩ := mem_buildMap src (k, v) hv
    have hmemf : (k, v) ∈ (buildMap src).filter (fun p => !hasKey (buildMap tgt) p.1) := by
      rw [List.mem_filter]
      exact ⟨hv, by simp [hc]⟩
    refine List.mem_append.mpr (Or.inr ?_)
    rw [List.map_map]
    refine List.mem_map.mpr ⟨(k, v), hmemf, ?_⟩
    simp only [Function.comp_apply, hf]
    exact hk1.symm

/-- Conversely, every key of the transferred batch is a key of `src`. -/
lemma mem_keys_of_transferred (f : CalibrationProfile → CalibrationProfile)
    (hf : ∀ c, generateCalibrationKey (f c) = generateCalibrationKey c)
    (src tgt : List CalibrationProfile) (k : String)
    (hk : k ∈ (((buildMap src).filter
      (fun p => !hasKey (buildMap tgt) p.1)).map (fun p => f p.2)).map
        generateCalibrationKey) :
    k ∈ src.map generateCalibrationKey := by
  rw [List.map_map] at hk
  obtain ⟨p, hp, he⟩ := List.mem_map.mp hk
  obtain ⟨_, h2⟩ := mem_buildMap src p (List.mem_filter.mp hp).1
  refine List.mem_map.mpr ⟨p.2, h2, ?_⟩
  rw [← he]
  simp only [Function.comp_apply, hf]

/-- Claim C5: `syncCalibrations` is idempotent — when online with all
operations succeeding, a first call completes with no errors, and a second
call (online, setup succeeding, no intervening changes) uploads and
downloads nothing: the fresh local timestamps assigned on download do not
change any fingerprint. -/
theorem syncCalibrations_idempotent (env env2 : SyncEnv) (st : SyncState)
    (h1 : env.online = true) (h2 : env.localReadFail = false)
    (h3 : env.fetchFail = false)
    (hup : ∀ c, env.uploadFails c = false) (hdn : ∀ c, env.downloadFails c = false)
    (g1 : env2.online = true) (g2 : env2.localReadFail = false)
    (g3 : env2.fetchFail = false) :
    ∃ r1 st1, syncCalibrations env st = .ok (r1, st1) ∧ r1.errors = [] ∧
      ∃ r2 st2, syncCalibrations env2 st1 = .ok (r2, st2) ∧
        r2.uploaded = 0 ∧ r2.downloaded = 0 := by
  have e1 : (buildMap st.locals).filter
      (fun p => !hasKey (buildMap st.remotes) p.1 && !env.uploadFails p.2) =
      (buildMap st.locals).filter (fun p => !hasKey (buildMap st.remotes) p.1) :=
    List.filter_congr (fun p _ => by rw [hup p.2]; simp)
  have e2 : (buildMap st.locals).filter
      (fun p => !hasKey (buildMap st.remotes) p.1 && env.uploadFails p.2) = [] := by
    rw [List.filter_eq_nil_iff]
    intro p _
    rw [hup p.2]
    simp
  have e3 : (buildMap st.remotes).filter
      (fun p => !hasKey (buildMap st.locals) p.1 && !env.downloadFails p.2) =
      (buildMap st.remotes).filter (fun p => !hasKey (buildMap st.locals) p.1) :=
    List.filter_congr (fun p _ => by rw [hdn p.2]; simp)
  have e4 : (buildMap st.remotes).filter
      (fun p => !hasKey (buildMap st.locals) p.1 && env.downloadFails p.2) = [] := by
    rw [List.filter_eq_nil_iff]
    intro p _
    rw [hdn p.2]
    simp
  have run1 : syncCalibrations env st =
      .ok (⟨((buildMap st.locals).filter (fun p => !hasKey (buildMap st.remotes) p.1)).length,
            ((buildMap st.remotes).filter (fun p => !hasKey (buildMap st.locals) p.1)).length,
            0, []⟩,
           ⟨st.locals ++ ((buildMap st.remotes).filter
              (fun p => !hasKey (buildMap st.locals) p.1)).map (fun p => stripProfile env p.2),
            st.remotes ++ ((buildMap st.locals).filter
              (fun p => !hasKey (buildMap st.remotes) p.1)).map
                (fun p => uploadedVersion env p.2)⟩) := by
    rw [syncCalibrations_run env st h1 h2 h3, e1, e2, e3, e4]
    simp
  refine ⟨_, _, run1, rfl, ?_⟩
  have closure1 : ∀ k ∈ (st.locals ++ ((buildMap st.remotes).filter
      (fun p => !hasKey (buildMap st.locals) p.1)).map
        (fun p => stripProfile env p.2)).map generateCalibrationKey,
      k ∈ (st.remotes ++ ((buildMap st.locals).filter
        (fun p => !hasKey (buildMap st.remotes) p.1)).map
          (fun p => uploadedVersion env p.2)).map generateCalibrationKey := by
    intro k hk
    rw [List.map_append] at hk
    rcases List.mem_append.mp hk with hk | hk
    · exact mem_keys_map_transfer (uploadedVersion env)
        (generateCalibrationKey_uploadedVersion env) st.locals st.remotes k hk
    · have hsrc : k ∈ st.remotes.map generateCalibrationKey :=
        mem_keys_of_transferred (stripProfile env)
          (generateCalibrationKey_stripProfile env) st.remotes st.locals k hk
      rw [List.map_append]
      exact List.mem_append.mpr (Or.inl hsrc)
  have closure2 : ∀ k ∈ (st.remotes ++ ((buildMap st.locals).filter
      (fun p => !hasKey (buildMap st.remotes) p.1)).map
        (fun p => uploadedVersion env p.2)).map generateCalibrationKey,
      k ∈ (st.locals ++ ((buildMap st.remotes).filter
        (fun p => !hasKey (buildMap st.locals) p.1)).map
          (fun p => stripProfile env p.2)).map generateCalibrationKey := by
    intro k hk
    rw [List.map_append] at hk
    rcases List.mem_append.mp hk with hk | hk
    · exact mem_keys_map_transfer (stripProfile env)
        (generateCalibrationKey_stripProfile env) st.remotes st.locals k hk
    · have hsrc : k ∈ st.locals.map generateCalibrationKey :=
        mem_keys_of_transferred (uploadedVersion env)
          (generateCalibrationKey_uploadedVersion env) st.locals st.remotes k hk
      rw [List.map_append]
      exact List.mem_append.mpr (Or.inl hsrc)
  have f1 : (buildMap (st.locals ++ ((buildMap st.remotes).filter
      (fun p => !hasKey (buildMap st.locals) p.1)).map
        (fun p => stripProfile env p.2))).filter
      (fun p => !hasKey (buildMap (st.remotes ++ ((buildMap st.locals).filter
        (fun p => !hasKey (buildMap st.remotes) p.1)).map
          (fun p => uploadedVersion env p.2))) p.1 && !env2.uploadFails p.2) = [] := by
    rw [List.filter_eq_nil_iff]
    intro p hp
    obtain ⟨hp1, hp2⟩ := mem_buildMap _ p hp
    have hkmem := closure1 p.1 (List.mem_map.mpr ⟨p.2, hp2, hp1.symm⟩)
    have hhk := (hasKey_buildMap _ p.1).mpr hkmem
    simp [hhk]
  have f2 : (buildMap (st.remotes ++ ((buildMap st.locals).filter
      (fun p => !hasKey (buildMap st.remotes) p.1)).map
        (fun p => uploadedVersion env p.2))).filter
      (fun p => !hasKey (buildMap (st.locals ++ ((buildMap st.remotes).filter
        (fun p => !hasKey (buildMap st.locals) p.1)).map
          (fun p => stripProfile env p.2))) p.1 && !env2.downloadFails p.2) = [] := by
    rw [List.filter_eq_nil_iff]
    intro p hp
    obtain ⟨hp1, hp2⟩ := mem_buildMap _ p hp
    have hkmem := closure2 p.1 (List.mem_map.mpr ⟨p.2, hp2, hp1.symm⟩)
    have hhk := (hasKey_buildMap _ p.1).mpr hkmem
    simp [hhk]
  refine ⟨_, _, syncCalibrations_run env2 _ g1 g2 g3, ?_, ?_⟩
  · show (((buildMap _).filter _).length = 0)
    rw [f1]
    rfl
  · show (((buildMap _).filter _).length = 0)
    rw [f2]
    rfl

/-- Witness for C5: one local-only and one remote-only profile, an
all-success environment; the second pass transfers nothing. -/
theorem syncCalibrations_idempotent_witness :
    envBase.online = true ∧ (∀ c, envBase.uploadFails c = false) ∧
      (∃ r1 st1, syncCalibrations envBase ⟨[profLocal], [profRemote]⟩ = .ok (r1, st1) ∧
        r1.errors = [] ∧ ∃ r2 st2, syncCalibrations envBase st1 = .ok (r2, st2) ∧
          r2.uploaded = 0 ∧ r2.downloaded = 0) :=
  ⟨rfl, fun _ => rfl,
   syncCalibrations_idempotent envBase envBase ⟨[profLocal], [profRemote]⟩ rfl rfl rfl
     (fun _ => rfl) (fun _ => rfl) rfl rfl rfl⟩

/-! ## Converter evaluation lemmas (for C2, C3, C7) -/

/-- Away from the `rpm` spec, `getSourcePace` succeeds with its total
value. -/
lemma getSourcePace_ok (iv : WorkoutInterval) (w : Workout)
    (h : w.target_spec ≠ .rpm) :
    getSourcePace iv w = .ok (getSourcePaceVal iv w) := by
  unfold getSourcePace getSourcePaceVal
  cases hs : w.target_spec
  · rfl
  · by_cases hr : w.source_modality = .row
    · rw [if_pos hr, if_pos hr]
    · rw [if_neg hr, if_neg hr]
  · rfl
  · exact absurd hs h

/-- Away from the `rpm` spec, the target-watts switch succeeds with its
total value. -/
lemma intervalTargetWatts_ok (spec : TargetSpec) (a b : ℝ) (hasCal : Bool) (v : ℝ)
    (h : spec ≠ .rpm) :
    intervalTargetWatts spec a b hasCal v = .ok (intervalTargetWattsVal spec a b v) := by
  cases hs : spec
  · rfl
  · rfl
  · rfl
  · exact absurd hs h

/-- Away from the `rpm` spec, the per-interval conversion succeeds with its
total value. -/
lemma convertInterval_ok (w : Workout) (a b : ℝ) (hasCal : Bool) (i : ℕ)
    (iv : WorkoutInterval) (h : w.target_spec ≠ .rpm) :
    convertInterval w a b hasCal i iv = .ok (convertIntervalVal w a b i iv) := by
  unfold convertInterval convertIntervalVal
  rw [intervalTargetWatts_ok _ _ _ _ _ h]
  simp only [Except.bind]
  by_cases hd : jsTruthy iv.distance
  · by_cases hx : (w.source_modality.isRow != w.target_modality.isRow) = true
    · simp only [if_pos hd, if_pos hx, getSourcePace_ok _ _ h, Except.bind]
    · simp only [if_pos hd, if_neg hx]
  · by_cases hu : jsTruthy iv.duration
    · by_cases hx : (w.source_modality.isRow != w.target_modality.isRow) = true
      · simp only [if_neg hd, if_pos hu, if_pos hx]
      · simp only [if_neg hd, if_pos hu, if_neg hx]
    · simp only [if_neg hd, if_neg hu]

/-- Away from the `rpm` spec, the interval loop succeeds with its total
value. -/
lemma convertIntervals_ok (w : Workout) (a b : ℝ) (hasCal : Bool)
    (h : w.target_spec ≠ .rpm) :
    ∀ (i : ℕ) (l : List WorkoutInterval),
      convertIntervals w a b hasCal i l = .ok (convertIntervalsVal w a b i l) := by
  intro i l
  induction l generalizing i with
  | nil => rfl
  | cons iv rest ih =>
      show (convertInterval w a b hasCal i iv).bind _ = _
      rw [convertInterval_ok _ _ _ _ _ _ h]
      simp only [Except.bind]
      rw [ih (i + 1)]
      rfl

/-- Away from the `rpm` spec, `convertWorkout` succeeds with the total
interval list, the workout's rest and the defaulted damper. -/
lemma convertWorkout_ok (w : Workout) (cal : Option CalibrationProfile)
    (h : w.target_spec ≠ .rpm) :
    convertWorkout w cal =
      .ok ⟨convertIntervalsVal w (workoutCoeffs w cal).1 (workoutCoeffs w cal).2 0 w.intervals,
           w.rest, jsOr w.damper_for_target 5⟩ := by
  unfold convertWorkout convertWorkoutAB
  rw [convertIntervals_ok _ _ _ _ h]
  rfl

/-- The total interval loop preserves length. -/
lemma convertIntervalsVal_length (w : Workout) (a b : ℝ) :
    ∀ (i : ℕ) (l : List WorkoutInterval),
      (convertIntervalsVal w a b i l).length = l.length := by
  intro i l
  induction l generalizing i with
  | nil => rfl
  | cons iv rest ih =>
      show (convertIntervalVal w a b i iv :: convertIntervalsVal w a b (i + 1) rest).length = _
      simp [ih (i + 1)]

/-- Indexing the total interval loop. -/
lemma convertIntervalsVal_get (w : Workout) (a b : ℝ) :
    ∀ (l : List WorkoutInterval) (i k : ℕ) (hk : k < l.length)
      (hk2 : k < (convertIntervalsVal w a b i l).length),
      (convertIntervalsVal w a b i l).get ⟨k, hk2⟩ =
        convertIntervalVal w a b (i + k) (l.get ⟨k, hk⟩) := by
  intro l
  induction l with
  | nil => intro i k hk; exact absurd hk (by simp)
  | cons iv rest ih =>
      intro i k hk hk2
      cases k with
      | zero => rfl
      | succ k =>
          have hk' : k < rest.length := by simpa using hk
          have hk2' : k < (convertIntervalsVal w a b (i + 1) rest).length := by
            rw [convertIntervalsVal_length]
            exact hk'
          show (convertIntervalsVal w a b (i + 1) rest).get ⟨k, _⟩ = _
          rw [ih (i + 1) k hk' hk2']
          congr 1
          omega

/-- `round` is monotone (via `round x = ⌊x + 1/2⌋`). -/
lemma round_le_round_of_le {x y : ℝ} (h : x ≤ y) : round x ≤ round y := by
  rw [round_eq, round_eq]
  exact Int.floor_mono (by linarith)

/-- The `target_rpm` field of every converted interval is the rounded,
rpm-clamped bike inversion of the target watts, whatever the modalities. -/
lemma convertIntervalVal_target_rpm (w : Workout) (a b : ℝ) (i : ℕ)
    (iv : WorkoutInterval) :
    (convertIntervalVal w a b i iv).target_rpm =
      round (clampRpm (predictRpm
        (intervalTargetWattsVal w.target_spec a b (iv.target_value : ℝ)) a b)) := by
  unfold convertIntervalVal
  by_cases hd : jsTruthy iv.distance
  · by_cases hx : (w.source_modality.isRow != w.target_modality.isRow) = true
    · simp only [if_pos hd, if_pos hx]
    · simp only [if_pos hd, if_neg hx]
  · by_cases hu : jsTruthy iv.duration
    · by_cases hx : (w.source_modality.isRow != w.target_modality.isRow) = true
      · simp only [if_neg hd, if_pos hu, if_pos hx]
      · simp only [if_neg hd, if_pos hu, if_neg hx]
    · simp only [if_neg hd, if_neg hu]

/-- Duration and distance fields of a cross-modality distance-driven
interval: no distance, the rounded source-pace elapsed time as duration. -/
lemma convertIntervalVal_cross_distance (w : Workout) (a b : ℝ) (i : ℕ)
    (iv : WorkoutInterval) (hd : jsTruthy iv.distance = true)
    (hx : (w.source_modality.isRow != w.target_modality.isRow) = true) :
    (convertIntervalVal w a b i iv).distance_meters = none ∧
    (convertIntervalVal w a b i iv).duration_seconds =
      some ((calculateTimeFromDistance ((iv.distance.getD 0 : ℚ) : ℝ)
        (getSourcePaceVal iv w) w.source_modality.isRow : ℤ) : ℝ) := by
  unfold convertIntervalVal
  simp only [if_pos hd, if_pos hx]
  constructor <;> trivial

/-- Duration and distance fields of a same-modality distance-driven
interval: the distance is kept and the duration is derived from the target
pace. -/
lemma convertIntervalVal_same_distance (w : Workout) (a b : ℝ) (i : ℕ)
    (iv : WorkoutInterval) (hd : jsTruthy iv.distance = true)
    (hx : (w.source_modality.isRow != w.target_modality.isRow) = false) :
    (convertIntervalVal w a b i iv).distance_meters =
      some ((iv.distance.getD 0 : ℚ) : ℝ) ∧
    (convertIntervalVal w a b i iv).duration_seconds =
      some ((round (((iv.distance.getD 0 : ℚ) : ℝ) *
        (wattsToPace (intervalTargetWattsVal w.target_spec a b (iv.target_value : ℝ))
            w.target_modality.isRow /
          (if w.target_modality.isRow then (500 : ℝ) else 1000))) : ℤ) : ℝ) := by
  unfold convertIntervalVal
  simp only [if_pos hd, if_neg (by simp [hx] : ¬((w.source_modality.isRow !=
    w.target_modality.isRow) = true))]
  constructor <;> trivial

/-- With the `rpm` spec and no calibration, converting any interval throws
`CalibrationRequired`. -/
lemma convertInterval_rpm_noCal (w : Workout) (a b : ℝ) (i : ℕ)
    (iv : WorkoutInterval) (hs : w.target_spec = .rpm) :
    convertInterval w a b false i iv =
      .error "Calibration required for RPM conversion" := by
  unfold convertInterval intervalTargetWatts
  rw [hs]
  rfl

/-- Inverting a successful per-interval conversion: whenever
`convertInterval` returns a value — for any `target_spec`, including `rpm`
with a calibration — that value is the total-value computation (a
successful `rpm` interval can never have taken the cross-modality distance
branch, which throws in `getSourcePace`). -/
lemma convertInterval_ok_inv (w : Workout) (a b : ℝ) (hasCal : Bool) (i : ℕ)
    (iv : WorkoutInterval) (civ : ConvertedInterval)
    (h : convertInterval w a b hasCal i iv = .ok civ) :
    civ = convertIntervalVal w a b i iv := by
  by_cases hs : w.target_spec = .rpm
  · cases hasCal with
    | false =>
        rw [convertInterval_rpm_noCal w a b i iv hs] at h
        exact Except.noConfusion h
    | true =>
        have htw : intervalTargetWatts w.target_spec a b true ((iv.target_value : ℚ) : ℝ) =
            .ok (intervalTargetWattsVal w.target_spec a b ((iv.target_value : ℚ) : ℝ)) := by
          rw [hs]
          rfl
        unfold convertInterval at h
        rw [htw] at h
        simp only [Except.bind] at h
        unfold convertIntervalVal
        by_cases hd : jsTruthy iv.distance
        · by_cases hx : (w.source_modality.isRow != w.target_modality.isRow) = true
          · rw [if_pos hd, if_pos hx] at h
            have hsp : getSourcePace iv w =
                .error "RPM to pace conversion requires calibration context" := by
              unfold getSourcePace
              rw [hs]
            rw [hsp] at h
            simp only [Except.bind] at h
            exact Except.noConfusion h
          · rw [if_pos hd, if_neg hx] at h
            simp only [if_pos hd, if_neg hx]
            exact (Except.ok.inj h).symm
        · by_cases hu : jsTruthy iv.duration
          · by_cases hx : (w.source_modality.isRow != w.target_modality.isRow) = true
            · rw [if_neg hd, if_pos hu, if_pos hx] at h
              simp only [if_neg hd, if_pos hu, if_pos hx]
              exact (Except.ok.inj h).symm
            · rw [if_neg hd, if_pos hu, if_neg hx] at h
              simp only [if_neg hd, if_pos hu, if_neg hx]
              exact (Except.ok.inj h).symm
          · rw [if_neg hd, if_neg hu] at h
            simp only [if_neg hd, if_neg hu]
            exact (Except.ok.inj h).symm
  · rw [convertInterval_ok w a b hasCal i iv hs] at h
    exact (Except.ok.inj h).symm

/-- Inverting a successful interval loop. -/
lemma convertIntervals_ok_inv (w : Workout) (a b : ℝ) (hasCal : Bool) :
    ∀ (i : ℕ) (l : List WorkoutInterval) (lst : List ConvertedInterval),
      convertIntervals w a b hasCal i l = .ok lst →
      lst = convertIntervalsVal w a b i l := by
  intro i l
  induction l generalizing i with
  | nil =>
      intro lst h
      exact (Except.ok.inj h).symm
  | cons iv rest ih =>
      intro lst h
      have hstep : convertIntervals w a b hasCal i (iv :: rest) =
          (convertInterval w a b hasCal i iv).bind fun c =>
            (convertIntervals w a b hasCal (i + 1) rest).bind fun cs => .ok (c :: cs) := rfl
      rw [hstep] at h
      cases hc : convertInterval w a b hasCal i iv with
      | error e =>
          rw [hc] at h
          simp only [Except.bind] at h
          exact Except.noConfusion h
      | ok c =>
          rw [hc] at h
          simp only [Except.bind] at h
          cases hcs : convertIntervals w a b hasCal (i + 1) rest with
          | error e =>
              rw [hcs] at h
              simp only [Except.bind] at h
              exact Except.noConfusion h
          | ok cs =>
              rw [hcs] at h
              simp only [Except.bind] at h
              rw [← Except.ok.inj h]
              show c :: cs =
                convertIntervalVal w a b i iv :: convertIntervalsVal w a b (i + 1) rest
              rw [convertInterval_ok_inv w a b hasCal i iv c hc, ih (i + 1) cs hcs]

/-- Inverting a successful `convertWorkout`: the result is the total-value
interval list with the workout's rest and defaulted damper, whatever the
`target_spec` and calibration. -/
lemma convertWorkout_ok_inv (w : Workout) (cal : Option CalibrationProfile)
    (res : ConversionResult) (h : convertWorkout w cal = .ok res) :
    res = ⟨convertIntervalsVal w (workoutCoeffs w cal).1 (workoutCoeffs w cal).2 0
      w.intervals, w.rest, jsOr w.damper_for_target 5⟩ := by
  unfold convertWorkout convertWorkoutAB at h
  cases hl : convertIntervals w (workoutCoeffs w cal).1 (workoutCoeffs w cal).2
      cal.isSome 0 w.intervals with
  | error e =>
      rw [hl] at h
      simp only [Except.bind] at h
      exact Except.noConfusion h
  | ok lst =>
      rw [hl] at h
      simp only [Except.bind] at h
      rw [← Except.ok.inj h,
        convertIntervals_ok_inv w _ _ cal.isSome 0 w.intervals lst hl]

/-! ## Claim C2 — which rate formula the converter applies -/

/-- Claim C2 (amended): for every interval of every workout whose
conversion succeeds — any `target_spec`, including `rpm` with a supplied
calibration — `convertWorkout` computes the output rate with `predictRpm`,
the bike inversion `predictRate(watts, a, b, 'bike') = (watts / a) ^ (1 / b)`,
clamped to the rpm range [60, 120], for both target modalities; the
stroke-rate branch of `predictRate` and the [18, 32] stroke-rate clamp are
never used. -/
theorem convertWorkout_rate_bike_inversion (w : Workout)
    (cal : Option CalibrationProfile) (res : ConversionResult)
    (h : convertWorkout w cal = .ok res) :
    res.intervals.length = w.intervals.length ∧
    ∀ (k : ℕ) (hk : k < w.intervals.length) (hk2 : k < res.intervals.length),
      (res.intervals.get ⟨k, hk2⟩).target_rpm =
        round (clampRpm (predictRate
          (intervalTargetWattsVal w.target_spec (workoutCoeffs w cal).1
            (workoutCoeffs w cal).2 ((w.intervals.get ⟨k, hk⟩).target_value : ℝ))
          (workoutCoeffs w cal).1 (workoutCoeffs w cal).2 .bike)) := by
  have hres := convertWorkout_ok_inv w cal res h
  subst hres
  constructor
  · exact convertIntervalsVal_length w _ _ 0 w.intervals
  · intro k hk hk2
    have hk2' : k < (convertIntervalsVal w (workoutCoeffs w cal).1
        (workoutCoeffs w cal).2 0 w.intervals).length := hk2
    show ((convertIntervalsVal w (workoutCoeffs w cal).1 (workoutCoeffs w cal).2 0
        w.intervals).get ⟨k, hk2'⟩).target_rpm = _
    rw [convertIntervalsVal_get w _ _ w.intervals 0 k hk hk2']
    rw [convertIntervalVal_target_rpm]
    rfl

/-- Witness for C2 at two successful conversions: a cross-modality
pace-specified workout, and an `rpm`-spec duration-driven workout with a
supplied calibration (the case where the conversion succeeds although the
spec is `rpm`). -/
theorem convertWorkout_rate_bike_inversion_witness :
    (∃ res, convertWorkout crossWorkout (some bikeCal) = .ok res ∧
      res.intervals.length = crossWorkout.intervals.length ∧
      ∀ (k : ℕ) (hk : k < crossWorkout.intervals.length)
        (hk2 : k < res.intervals.length),
        (res.intervals.get ⟨k, hk2⟩).target_rpm =
          round (clampRpm (predictRate
            (intervalTargetWattsVal crossWorkout.target_spec
              (workoutCoeffs crossWorkout (some bikeCal)).1
              (workoutCoeffs crossWorkout (some bikeCal)).2
              ((crossWorkout.intervals.get ⟨k, hk⟩).target_value : ℝ))
            (workoutCoeffs crossWorkout (some bikeCal)).1
            (workoutCoeffs crossWorkout (some bikeCal)).2 .bike))) ∧
    (∃ res, convertWorkout rpmDurWorkout (some bikeCal) = .ok res ∧
      res.intervals.length = rpmDurWorkout.intervals.length ∧
      ∀ (k : ℕ) (hk : k < rpmDurWorkout.intervals.length)
        (hk2 : k < res.intervals.length),
        (res.intervals.get ⟨k, hk2⟩).target_rpm =
          round (clampRpm (predictRate
            (intervalTargetWattsVal rpmDurWorkout.target_spec
              (workoutCoeffs rpmDurWorkout (some bikeCal)).1
              (workoutCoeffs rpmDurWorkout (some bikeCal)).2
              ((rpmDurWorkout.intervals.get ⟨k, hk⟩).target_value : ℝ))
            (workoutCoeffs rpmDurWorkout (some bikeCal)).1
            (workoutCoeffs rpmDurWorkout (some bikeCal)).2 .bike))) :=
  ⟨⟨_, convertWorkout_ok crossWorkout (some bikeCal) (by decide),
    convertWorkout_rate_bike_inversion crossWorkout (some bikeCal) _
      (convertWorkout_ok crossWorkout (some bikeCal) (by decide))⟩,
   ⟨_, rfl,
    convertWorkout_rate_bike_inversion rpmDurWorkout (some bikeCal) _ rfl⟩⟩

/-- Counterexample to C2 as stated: converting a RowErg-target workout
(watts spec, 270 W) with the fitted calibration yields a `target_rpm` of at
least 60 — never the claimed stroke-rate prediction `a * watts ^ b` clamped
to [18, 32], which is at most 32. -/
theorem convertWorkout_row_rate_not_strokeRate :
    ∃ res, convertWorkout rowWattsWorkout (some bikeCal) = .ok res ∧
      ∀ civ ∈ res.intervals, civ.target_rpm ≠
        round (clampStrokeRate (predictStrokeRate ((270 : ℚ) : ℝ)
          ((bikeCal.a : ℚ) : ℝ) ((bikeCal.b : ℚ) : ℝ))) := by
  refine ⟨_, convertWorkout_ok rowWattsWorkout (some bikeCal) (by decide), ?_⟩
  intro civ hciv
  have hciv2 : civ ∈ [convertIntervalVal rowWattsWorkout
      (workoutCoeffs rowWattsWorkout (some bikeCal)).1
      (workoutCoeffs rowWattsWorkout (some bikeCal)).2 0 ⟨none, some 300, 270⟩] := hciv
  have hmem : civ = convertIntervalVal rowWattsWorkout
      (workoutCoeffs rowWattsWorkout (some bikeCal)).1
      (workoutCoeffs rowWattsWorkout (some bikeCal)).2 0 ⟨none, some 300, 270⟩ :=
    List.mem_singleton.mp hciv2
  rw [hmem, convertIntervalVal_target_rpm]
  have hle : round (clampStrokeRate (predictStrokeRate ((270 : ℚ) : ℝ)
      ((bikeCal.a : ℚ) : ℝ) ((bikeCal.b : ℚ) : ℝ))) ≤ 32 := by
    have h1 : clampStrokeRate (predictStrokeRate ((270 : ℚ) : ℝ)
        ((bikeCal.a : ℚ) : ℝ) ((bikeCal.b : ℚ) : ℝ)) ≤ 32 := by
      unfold clampStrokeRate
      exact max_le (by norm_num) (min_le_left _ _)
    calc round (clampStrokeRate (predictStrokeRate ((270 : ℚ) : ℝ)
        ((bikeCal.a : ℚ) : ℝ) ((bikeCal.b : ℚ) : ℝ))) ≤ round ((32 : ℝ)) :=
          round_le_round_of_le h1
      _ = 32 := by rw [show ((32 : ℝ)) = ((32 : ℤ) : ℝ) by norm_num, round_intCast]
  have hge : (60 : ℤ) ≤ round (clampRpm (predictRpm
      (intervalTargetWattsVal rowWattsWorkout.target_spec
        (workoutCoeffs rowWattsWorkout (some bikeCal)).1
        (workoutCoeffs rowWattsWorkout (some bikeCal)).2
        (((⟨none, some 300, 270⟩ : WorkoutInterval).target_value : ℚ) : ℝ))
      (workoutCoeffs rowWattsWorkout (some bikeCal)).1
      (workoutCoeffs rowWattsWorkout (some bikeCal)).2)) := by
    have h1 : (60 : ℝ) ≤ clampRpm (predictRpm
        (intervalTargetWattsVal rowWattsWorkout.target_spec
          (workoutCoeffs rowWattsWorkout (some bikeCal)).1
          (workoutCoeffs rowWattsWorkout (some bikeCal)).2
          (((⟨none, some 300, 270⟩ : WorkoutInterval).target_value : ℚ) : ℝ))
        (workoutCoeffs rowWattsWorkout (some bikeCal)).1
        (workoutCoeffs rowWattsWorkout (some bikeCal)).2) := le_max_left _ _
    calc (60 : ℤ) = round ((60 : ℝ)) := by
          rw [show ((60 : ℝ)) = ((60 : ℤ) : ℝ) by norm_num, round_intCast]
      _ ≤ _ := round_le_round_of_le h1
  omega

/-! ## Claim C3 — distance semantics of the conversion -/

/-- The converter's cross-modality test agrees with modality inequality. -/
lemma isRow_bne_eq_decide (m1 m2 : Modality) :
    (m1.isRow != m2.isRow) = decide (m1 ≠ m2) := by
  cases m1 <;> cases m2 <;> rfl

/-- Claim C3 (amended): for every distance-driven interval (distance present
and nonzero) of a successfully converted workout (`target_spec ≠ rpm`): with
differing modalities the result has `distance_meters` absent and
`duration_seconds` equal to the rounded elapsed time at the re-derived
source pace (`Math.round(distance * pace / unit)`, which is 0 — not
positive — for sub-meter distances); with equal modalities the distance is
kept and `duration_seconds` is derived from the target pace. -/
theorem convertWorkout_distance_rule (w : Workout) (cal : Option CalibrationProfile)
    (h : w.target_spec ≠ .rpm) :
    ∃ res, convertWorkout w cal = .ok res ∧
      res.intervals.length = w.intervals.length ∧
      ∀ (k : ℕ) (hk : k < w.intervals.length) (hk2 : k < res.intervals.length) (d : ℚ),
        (w.intervals.get ⟨k, hk⟩).distance = some d → d ≠ 0 →
        ((w.source_modality ≠ w.target_modality →
          (res.intervals.get ⟨k, hk2⟩).distance_meters = none ∧
          ∃ sp, getSourcePace (w.intervals.get ⟨k, hk⟩) w = .ok sp ∧
            (res.intervals.get ⟨k, hk2⟩).duration_seconds =
              some ((calculateTimeFromDistance (d : ℝ) sp w.source_modality.isRow : ℤ) : ℝ)) ∧
        (w.source_modality = w.target_modality →
          (res.intervals.get ⟨k, hk2⟩).distance_meters = some (d : ℝ) ∧
          (res.intervals.get ⟨k, hk2⟩).duration_seconds =
            some ((round ((d : ℝ) * (wattsToPace (intervalTargetWattsVal w.target_spec
                (workoutCoeffs w cal).1 (workoutCoeffs w cal).2
                ((w.intervals.get ⟨k, hk⟩).target_value : ℝ)) w.target_modality.isRow /
              (if w.target_modality.isRow then (500 : ℝ) else 1000))) : ℤ) : ℝ))) := by
  refine ⟨_, convertWorkout_ok w cal h, convertIntervalsVal_length w _ _ 0 w.intervals, ?_⟩
  intro k hk hk2 d hd hd0
  have hk2' : k < (convertIntervalsVal w (workoutCoeffs w cal).1
      (workoutCoeffs w cal).2 0 w.intervals).length := hk2
  have hget : ((⟨convertIntervalsVal w (workoutCoeffs w cal).1 (workoutCoeffs w cal).2 0
      w.intervals, w.rest, jsOr w.damper_for_target 5⟩ : ConversionResult)).intervals.get
        ⟨k, hk2⟩ =
      convertIntervalVal w (workoutCoeffs w cal).1 (workoutCoeffs w cal).2 (0 + k)
        (w.intervals.get ⟨k, hk⟩) :=
    convertIntervalsVal_get w _ _ w.intervals 0 k hk hk2'
  have htr : jsTruthy (w.intervals.get ⟨k, hk⟩).distance = true := by
    rw [hd]
    simp [jsTruthy, hd0]
  constructor
  · intro hne
    have hx : (w.source_modality.isRow != w.target_modality.isRow) = true := by
      rw [isRow_bne_eq_decide]
      simp [hne]
    obtain ⟨h1, h2⟩ := convertIntervalVal_cross_distance w (workoutCoeffs w cal).1
      (workoutCoeffs w cal).2 (0 + k) (w.intervals.get ⟨k, hk⟩) htr hx
    refine ⟨by rw [hget]; exact h1,
      ⟨getSourcePaceVal (w.intervals.get ⟨k, hk⟩) w, getSourcePace_ok _ _ h, ?_⟩⟩
    rw [hget, h2, hd]
    simp
  · intro heq
    have hx : (w.source_modality.isRow != w.target_modality.isRow) = false := by
      rw [isRow_bne_eq_decide]
      simp [heq]
    obtain ⟨h1, h2⟩ := convertIntervalVal_same_distance w (workoutCoeffs w cal).1
      (workoutCoeffs w cal).2 (0 + k) (w.intervals.get ⟨k, hk⟩) htr hx
    constructor
    · rw [hget, h1, hd]
      simp
    · rw [hget, h2, hd]
      simp

/-- Witness for C3: the 250 m row-to-bike workout. -/
theorem convertWorkout_distance_rule_witness :
    crossWorkout.target_spec ≠ .rpm ∧
      (∃ res, convertWorkout crossWorkout none = .ok res ∧
        res.intervals.length = crossWorkout.intervals.length ∧
        ∀ (k : ℕ) (hk : k < crossWorkout.intervals.length)
          (hk2 : k < res.intervals.length) (d : ℚ),
          (crossWorkout.intervals.get ⟨k, hk⟩).distance = some d → d ≠ 0 →
          ((crossWorkout.source_modality ≠ crossWorkout.target_modality →
            (res.intervals.get ⟨k, hk2⟩).distance_meters = none ∧
            ∃ sp, getSourcePace (crossWorkout.intervals.get ⟨k, hk⟩) crossWorkout = .ok sp ∧
              (res.intervals.get ⟨k, hk2⟩).duration_seconds =
                some ((calculateTimeFromDistance (d : ℝ) sp
                  crossWorkout.source_modality.isRow : ℤ) : ℝ)) ∧
          (crossWorkout.source_modality = crossWorkout.target_modality →
            (res.intervals.get ⟨k, hk2⟩).distance_meters = some (d : ℝ) ∧
            (res.intervals.get ⟨k, hk2⟩).duration_seconds =
              some ((round ((d : ℝ) * (wattsToPace (intervalTargetWattsVal
                  crossWorkout.target_spec (workoutCoeffs crossWorkout none).1
                  (workoutCoeffs crossWorkout none).2
                  ((crossWorkout.intervals.get ⟨k, hk⟩).target_value : ℝ))
                  crossWorkout.target_modality.isRow /
                (if crossWorkout.target_modality.isRow then (500 : ℝ) else 1000))) : ℤ) : ℝ)))) :=
  ⟨by decide, convertWorkout_distance_rule crossWorkout none (by decide)⟩

/-- Counterexample to C3 as stated: a 1 m cross-modality (row to bike)
interval at 1:50/500 m yields `duration_seconds = 0` — the elapsed time
`Math.round(1 * 110 / 500)` rounds to zero, so the promised duration is not
positive (and `distance_meters` is indeed absent). -/
theorem convertWorkout_tiny_distance_zero_duration :
    ∃ res, convertWorkout tinyCrossWorkout none = .ok res ∧
      res.intervals.map (fun c => (c.duration_seconds, c.distance_meters)) =
        [(some (0 : ℝ), none)] := by
  refine ⟨_, convertWorkout_ok tinyCrossWorkout none (by decide), ?_⟩
  obtain ⟨h1, h2⟩ := convertIntervalVal_cross_distance tinyCrossWorkout
    (workoutCoeffs tinyCrossWorkout none).1 (workoutCoeffs tinyCrossWorkout none).2 0
    ⟨some 1, none, 110⟩ (by decide) (by decide)
  have hdur : calculateTimeFromDistance (((some (1 : ℚ)).getD 0 : ℚ) : ℝ)
      (getSourcePaceVal ⟨some 1, none, 110⟩ tinyCrossWorkout)
      tinyCrossWorkout.source_modality.isRow = 0 := by
    show round ((((1 : ℚ) : ℝ)) * (((110 : ℚ) : ℝ) / 500)) = 0
    rw [round_eq, Int.floor_eq_zero_iff]
    constructor <;> norm_num
  show [((convertIntervalVal tinyCrossWorkout (workoutCoeffs tinyCrossWorkout none).1
      (workoutCoeffs tinyCrossWorkout none).2 0 ⟨some 1, none, 110⟩).duration_seconds,
    (convertIntervalVal tinyCrossWorkout (workoutCoeffs tinyCrossWorkout none).1
      (workoutCoeffs tinyCrossWorkout none).2 0 ⟨some 1, none, 110⟩).distance_meters)] =
    [(some (0 : ℝ), none)]
  rw [h1, h2, hdur]
  norm_num

/-! ## Claim C7 — when `CalibrationRequired` is thrown -/

/-- Claim C7 (amended): `convertWorkout` fails with `CalibrationRequired`
exactly when `target_spec` is `rpm`, no calibration is supplied, **and the
workout has at least one interval** (the check lives inside the per-interval
map, so an interval-less `rpm` workout succeeds); for every other
`target_spec` a missing calibration is replaced by the generic calibration
and the conversion succeeds. -/
theorem convertWorkout_calibrationRequired (w : Workout) :
    ((convertWorkout w none = .error "Calibration required for RPM conversion") ↔
      (w.target_spec = .rpm ∧ w.intervals ≠ [])) ∧
    (w.target_spec ≠ .rpm → ∃ r, convertWorkout w none = .ok r) := by
  constructor
  · constructor
    · intro he
      by_cases hs : w.target_spec = .rpm
      · refine ⟨hs, ?_⟩
        intro hnil
        have hok : convertWorkout w none = .ok ⟨[], w.rest, jsOr w.damper_for_target 5⟩ := by
          unfold convertWorkout convertWorkoutAB
          rw [hnil]
          rfl
        rw [hok] at he
        exact Except.noConfusion he
      · rw [convertWorkout_ok w none hs] at he
        exact Except.noConfusion he
    · rintro ⟨hs, hne⟩
      obtain ⟨iv, rest, hl⟩ := List.exists_cons_of_ne_nil hne
      unfold convertWorkout convertWorkoutAB
      rw [hl]
      show ((convertInterval w _ _ false 0 iv).bind _).bind _ = _
      rw [convertInterval_rpm_noCal w _ _ 0 iv hs]
      rfl
  · intro hs
    exact ⟨_, convertWorkout_ok w none hs⟩

/-- Witness for C7: a one-interval `rpm` workout without calibration throws
`CalibrationRequired`; a pace-specified workout without calibration
succeeds on the generic calibration. -/
theorem convertWorkout_calibrationRequired_witness :
    (rpmWorkout.target_spec = .rpm ∧ rpmWorkout.intervals ≠ []) ∧
      convertWorkout rpmWorkout none = .error "Calibration required for RPM conversion" ∧
      crossWorkout.target_spec ≠ .rpm ∧
      (∃ r, convertWorkout crossWorkout none = .ok r) :=
  ⟨⟨rfl, by decide⟩,
   (convertWorkout_calibrationRequired rpmWorkout).1.mpr ⟨rfl, by decide⟩,
   by decide,
   (convertWorkout_calibrationRequired crossWorkout).2 (by decide)⟩

/-- Counterexample to C7 as stated: an `rpm`-spec workout with no intervals
and no calibration does **not** fail — the conversion returns an empty
result. -/
theorem convertWorkout_rpm_empty_intervals_ok :
    emptyRpmWorkout.target_spec = .rpm ∧
      convertWorkout emptyRpmWorkout none = .ok ⟨[], 45, 5⟩ :=
  ⟨rfl, by rfl⟩
